import Mathlib

/-!
Shallow embedding of the PLAAFP-assistant core (src/index.tsx): the record
data model, the template renderer `generatePreviewHtml`, and the
preview-edit reconciler `handlePreviewEdit`, together with proofs settling
the frozen claims about them.

Modelling conventions:
* JS strings are Lean `String`; machine-level details (UTF-16) are
  irrelevant here because all operations used are code-point-wise.
* `String.prototype.trim` is modelled by `jsTrim` over the JS whitespace
  character class.
* The edited preview markup is modelled at the point the source consumes
  it: `handlePreviewEdit` runs `querySelectorAll('.editable-field[data-field]')`
  on the parsed markup and reads `dataset.field`, `dataset.index`,
  `dataset.sectionType` and `innerText` of each hit.  A `LocatedField`
  is exactly that per-element view (the parser div is detached, so
  `innerText` equals `textContent`, i.e. the entity-unescaped text).
  The rendered document is modelled as a list of `Part`s (raw text and
  editable spans); `partToString`/`generatePreviewHtml` produce the exact
  markup string and `extractFields` produces the `LocatedField` view the
  DOM parse of that markup yields.
-/

set_option maxRecDepth 40000
set_option maxHeartbeats 1000000
set_option linter.unusedVariables false

/-- JS WhiteSpace and LineTerminator characters recognised by
`String.prototype.trim` and by `parseInt` when skipping leading space. -/
def jsWhitespace (c : Char) : Bool :=
  c = ' ' || c = '\t' || c = '\n' || c = '\r' || c.toNat = 0xb || c.toNat = 0xc ||
  c.toNat = 0xa0 || c.toNat = 0x2028 || c.toNat = 0x2029 || c.toNat = 0xfeff

/-- Drop JS whitespace from both ends of a character list. -/
def trimChars (l : List Char) : List Char :=
  ((l.dropWhile jsWhitespace).reverse.dropWhile jsWhitespace).reverse

/-- Model of `String.prototype.trim`. -/
def jsTrim (s : String) : String :=
  String.mk (trimChars s.data)

/-- Source line 115: `const fill = (value, placeholder) =>
value?.trim() ? value.trim() : `(${placeholder})`;` -/
def fill (value placeholder : String) : String :=
  if jsTrim value ≠ "" then jsTrim value else "(" ++ placeholder ++ ")"

/-- Source line 116: `const fillPronoun = (studentName, pronoun) =>
studentName?.trim() ? pronoun : 'he/she';` -/
def fillPronoun (studentName pronoun : String) : String :=
  if jsTrim studentName ≠ "" then pronoun else "he/she"

/-- Source line 117: `const fillPossessive = (studentName, pronoun) =>
studentName?.trim() ? `${studentName}'s` : `______'s`;` (the second
parameter is unused in the source as well). -/
def fillPossessive (studentName pronoun : String) : String :=
  if jsTrim studentName ≠ "" then studentName ++ "\x27s" else "______\x27s"

/-- JS truthiness fallback `a || b` for strings (the empty string is the
only falsy string). -/
def jsOr (a b : String) : String :=
  if a = "" then b else a

/-- Escape one character the way `sanitize` (source line 762) rewrites the
whole string: `str.replace(/&/g,"&amp;").replace(/</g,"&lt;").replace(/>/g,"&gt;")`.
The three global replaces are equivalent to this single character-wise pass
because the inserted entity texts contain no `<` or `>` and the `&` they
contain is only produced after the `&` pass has already run. -/
def escapeChar (c : Char) : List Char :=
  if c = '&' then "&amp;".data
  else if c = '<' then "&lt;".data
  else if c = '>' then "&gt;".data
  else [c]

/-- Source line 762: the `sanitize` helper of `generatePreviewHtml`. -/
def sanitize (s : String) : String :=
  String.mk (s.data.map escapeChar).flatten

/-- Model of `s.charAt(0).toUpperCase() + s.slice(1)` (source line 778);
the values that reach it are ASCII (`normative` / `relative`). -/
def capFirst (s : String) : String :=
  match s.data with
  | [] => ""
  | c :: cs => String.mk (c.toUpper :: cs)

/-- Decimal digit character for `n < 10` (and `'0'` past that, unused). -/
def digitChar (n : Nat) : Char :=
  match n with
  | 0 => '0' | 1 => '1' | 2 => '2' | 3 => '3' | 4 => '4'
  | 5 => '5' | 6 => '6' | 7 => '7' | 8 => '8' | 9 => '9'
  | _ => '0'

/-- Decimal digits of a natural number, most significant first. -/
def natDigits (n : Nat) : List Char :=
  if h : n < 10 then [digitChar n]
  else natDigits (n / 10) ++ [digitChar (n % 10)]
  decreasing_by exact Nat.div_lt_self (by omega) (by omega)

/-- Model of JS number-to-string conversion for the nonnegative integers
the source produces (`Date.now().toString()`, `data-index="${index}"`). -/
def natToString (n : Nat) : String :=
  String.mk (natDigits n)

/-- Numeric value of a decimal digit character. -/
def digitVal (c : Char) : Nat := c.toNat - '0'.toNat

/-- Value of a list of decimal digit characters, most significant first. -/
def digitsToNat (l : List Char) : Nat :=
  l.foldl (fun a c => 10 * a + digitVal c) 0

/-- Longest leading run of decimal digits, `none` when there is none. -/
def leadingDigits (l : List Char) : Option Nat :=
  let ds := l.takeWhile Char.isDigit
  if ds = [] then none else some (digitsToNat ds)

/-- Model of `parseInt(s, 10)` (source line 478): skip leading whitespace,
accept an optional sign, then read the longest run of decimal digits;
`none` models the `NaN` result. -/
def parseInt10 (s : String) : Option Int :=
  match s.data.dropWhile jsWhitespace with
  | [] => none
  | c :: rest =>
    if c = '-' then (leadingDigits rest).map (fun n => -(n : Int))
    else if c = '+' then (leadingDigits rest).map (fun n => (n : Int))
    else (leadingDigits (c :: rest)).map (fun n => (n : Int))

/-- A parsed index is usable as a JS array index only when it is a
nonnegative integer; `arr[i]` is `undefined` for `NaN` and negatives,
which the reconciler treats as a skip. -/
def intIdx : Option Int → Option Nat
  | some i => if 0 ≤ i then some i.toNat else none
  | none => none

/-- Bool test for one list being a prefix of another. -/
def leadsWith : List Char → List Char → Bool
  | [], _ => true
  | _ :: _, [] => false
  | a :: as, b :: bs => a = b && leadsWith as bs

/-- Bool test for `needle` occurring as a contiguous run inside `hay`. -/
def containsSeq : List Char → List Char → Bool
  | [], needle => needle.isEmpty
  | h :: t, needle => leadsWith needle (h :: t) || containsSeq t needle

/-- Substring occurrence test on strings. -/
def strContains (hay needle : String) : Bool :=
  containsSeq hay.data needle.data

-- --- DATA MODEL (source lines 6-76) ---

/-- Source interface `AcademicSection` (lines 6-31).  Every field is a
string except `progressDataSources`, which the source declares as
`string[]`. -/
structure AcademicSection where
  id : String
  subject : String
  staarProficient : String
  staarDeficits : String
  progressDataSources : List String
  currentData : String
  performanceComparison : String
  noProgressReason : String
  readingFluency : String
  readingComprehension : String
  mathProblemSolving : String
  supportsPerformance : String
  classroomStrengths : String
  classroomDeficits : String
  deficitsEvidence : String
  withSupports : String
  withoutSupports : String
  peerComparisonGradeLevel : String
  peerComparisonStudent : String
  benchmarkPercentile : String
  peerBenchmarkPercentile : String
  strengthsDespiteDeficits : String
  criticalNeeds : String
  independentAccessImpact : String
  deriving DecidableEq, Repr

/-- Source interface `PerformanceSummarySection` (lines 33-45).  The two
constrained fields are `'passed' | 'did not pass' | ''` and
`'receives' | 'does not receive' | ''` in the source; they are strings at
runtime and the reconciler writes arbitrary strings into them, so they are
modelled as `String`. -/
structure PerformanceSummarySection where
  id : String
  subject : String
  passedStateAssessment : String
  taksScore : String
  rawScore : String
  percentCorrect : String
  gradeInSubject : String
  accommodations : String
  needs : String
  receivesSpecialEdSupport : String
  strengths : String
  deriving DecidableEq, Repr

/-- Source interface `PlaafpData` (lines 47-76). -/
structure PlaafpData where
  studentName : String
  grade : String
  disabilities : String
  subjects : String
  cognitiveDeficits : String
  academicDeficits : String
  disabilityImpact : String
  deficitType : String
  specialEdSupport : String
  relatedServices : String
  accommodations : String
  academicSections : List AcademicSection
  performanceSummarySections : List PerformanceSummarySection
  functionalStrengths : String
  functionalDeficits : String
  functionalDataSource : String
  functionalImpact : String
  transitionStrengths : String
  transitionSupportNeeds : String
  transitionIndependentLiving : String
  transitionSchedules : String
  transitionResponsibility : String
  transitionParticipation : String
  transitionEmploymentGoal : String
  parentEmploymentPlan : String
  parentEmploymentGoal : String
  parentLivingPlan : String
  parentName : String
  deriving DecidableEq, Repr

/-- Source `initialAcademicSection` (lines 83-92) together with the fresh
`id` the add-section handler spreads in front of it. -/
def initialAcademicSection (id : String) : AcademicSection :=
  { id := id, subject := "", staarProficient := "", staarDeficits := "",
    progressDataSources := [], currentData := "", performanceComparison := "",
    noProgressReason := "", readingFluency := "", readingComprehension := "",
    mathProblemSolving := "", supportsPerformance := "", classroomStrengths := "",
    classroomDeficits := "", deficitsEvidence := "", withSupports := "",
    withoutSupports := "", peerComparisonGradeLevel := "", peerComparisonStudent := "",
    benchmarkPercentile := "", peerBenchmarkPercentile := "",
    strengthsDespiteDeficits := "", criticalNeeds := "", independentAccessImpact := "" }

/-- Source `initialPerformanceSummarySection` (lines 94-98) plus the id. -/
def initialPerformanceSummarySection (id : String) : PerformanceSummarySection :=
  { id := id, subject := "", passedStateAssessment := "", taksScore := "",
    rawScore := "", percentCorrect := "", gradeInSubject := "",
    accommodations := "", needs := "", receivesSpecialEdSupport := "",
    strengths := "" }

/-- Source `initialPlaafpData` (lines 101-112). -/
def initialPlaafpData : PlaafpData :=
  { studentName := "", grade := "", disabilities := "", subjects := "",
    cognitiveDeficits := "", academicDeficits := "", disabilityImpact := "",
    deficitType := "", specialEdSupport := "", relatedServices := "",
    accommodations := "", academicSections := [], performanceSummarySections := [],
    functionalStrengths := "", functionalDeficits := "", functionalDataSource := "",
    functionalImpact := "", transitionStrengths := "", transitionSupportNeeds := "",
    transitionIndependentLiving := "", transitionSchedules := "",
    transitionResponsibility := "", transitionParticipation := "",
    transitionEmploymentGoal := "", parentEmploymentPlan := "",
    parentEmploymentGoal := "", parentLivingPlan := "", parentName := "" }

/-- Source `handleAddAcademicSection` (lines 287-292); the `Date.now()`
millisecond clock reading is an external input and is passed in as `now`. -/
def handleAddAcademicSection (prev : PlaafpData) (now : Nat) : PlaafpData :=
  { prev with academicSections :=
      prev.academicSections ++ [initialAcademicSection (natToString now)] }

/-- Source `handleAddPerformanceSummarySection` (lines 301-306). -/
def handleAddPerformanceSummarySection (prev : PlaafpData) (now : Nat) : PlaafpData :=
  { prev with performanceSummarySections :=
      prev.performanceSummarySections ++ [initialPerformanceSummarySection (natToString now)] }
/-- The 26 top-level scalar (string) fields of `PlaafpData`, i.e. every key the reconciler can meaningfully address with a top-level `data-field` locator. -/
inductive TopField where
  | studentName
  | grade
  | disabilities
  | subjects
  | cognitiveDeficits
  | academicDeficits
  | disabilityImpact
  | deficitType
  | specialEdSupport
  | relatedServices
  | accommodations
  | functionalStrengths
  | functionalDeficits
  | functionalDataSource
  | functionalImpact
  | transitionStrengths
  | transitionSupportNeeds
  | transitionIndependentLiving
  | transitionSchedules
  | transitionResponsibility
  | transitionParticipation
  | transitionEmploymentGoal
  | parentEmploymentPlan
  | parentEmploymentGoal
  | parentLivingPlan
  | parentName
  deriving DecidableEq, Repr

/-- Map a `data-field` attribute value to the TopField it names, `none` for
any other string. -/
def TopField.ofString (s : String) : Option TopField :=
  match s with
  | "studentName" => some .studentName
  | "grade" => some .grade
  | "disabilities" => some .disabilities
  | "subjects" => some .subjects
  | "cognitiveDeficits" => some .cognitiveDeficits
  | "academicDeficits" => some .academicDeficits
  | "disabilityImpact" => some .disabilityImpact
  | "deficitType" => some .deficitType
  | "specialEdSupport" => some .specialEdSupport
  | "relatedServices" => some .relatedServices
  | "accommodations" => some .accommodations
  | "functionalStrengths" => some .functionalStrengths
  | "functionalDeficits" => some .functionalDeficits
  | "functionalDataSource" => some .functionalDataSource
  | "functionalImpact" => some .functionalImpact
  | "transitionStrengths" => some .transitionStrengths
  | "transitionSupportNeeds" => some .transitionSupportNeeds
  | "transitionIndependentLiving" => some .transitionIndependentLiving
  | "transitionSchedules" => some .transitionSchedules
  | "transitionResponsibility" => some .transitionResponsibility
  | "transitionParticipation" => some .transitionParticipation
  | "transitionEmploymentGoal" => some .transitionEmploymentGoal
  | "parentEmploymentPlan" => some .parentEmploymentPlan
  | "parentEmploymentGoal" => some .parentEmploymentGoal
  | "parentLivingPlan" => some .parentLivingPlan
  | "parentName" => some .parentName
  | _ => none

/-- Read the named string field of a `PlaafpData`. -/
def getTop (d : PlaafpData) : TopField → String
  | .studentName => d.studentName
  | .grade => d.grade
  | .disabilities => d.disabilities
  | .subjects => d.subjects
  | .cognitiveDeficits => d.cognitiveDeficits
  | .academicDeficits => d.academicDeficits
  | .disabilityImpact => d.disabilityImpact
  | .deficitType => d.deficitType
  | .specialEdSupport => d.specialEdSupport
  | .relatedServices => d.relatedServices
  | .accommodations => d.accommodations
  | .functionalStrengths => d.functionalStrengths
  | .functionalDeficits => d.functionalDeficits
  | .functionalDataSource => d.functionalDataSource
  | .functionalImpact => d.functionalImpact
  | .transitionStrengths => d.transitionStrengths
  | .transitionSupportNeeds => d.transitionSupportNeeds
  | .transitionIndependentLiving => d.transitionIndependentLiving
  | .transitionSchedules => d.transitionSchedules
  | .transitionResponsibility => d.transitionResponsibility
  | .transitionParticipation => d.transitionParticipation
  | .transitionEmploymentGoal => d.transitionEmploymentGoal
  | .parentEmploymentPlan => d.parentEmploymentPlan
  | .parentEmploymentGoal => d.parentEmploymentGoal
  | .parentLivingPlan => d.parentLivingPlan
  | .parentName => d.parentName

/-- Replace the named string field of a `PlaafpData`. -/
def setTop (d : PlaafpData) (f : TopField) (v : String) : PlaafpData :=
  match f with
  | .studentName => { d with studentName := v }
  | .grade => { d with grade := v }
  | .disabilities => { d with disabilities := v }
  | .subjects => { d with subjects := v }
  | .cognitiveDeficits => { d with cognitiveDeficits := v }
  | .academicDeficits => { d with academicDeficits := v }
  | .disabilityImpact => { d with disabilityImpact := v }
  | .deficitType => { d with deficitType := v }
  | .specialEdSupport => { d with specialEdSupport := v }
  | .relatedServices => { d with relatedServices := v }
  | .accommodations => { d with accommodations := v }
  | .functionalStrengths => { d with functionalStrengths := v }
  | .functionalDeficits => { d with functionalDeficits := v }
  | .functionalDataSource => { d with functionalDataSource := v }
  | .functionalImpact => { d with functionalImpact := v }
  | .transitionStrengths => { d with transitionStrengths := v }
  | .transitionSupportNeeds => { d with transitionSupportNeeds := v }
  | .transitionIndependentLiving => { d with transitionIndependentLiving := v }
  | .transitionSchedules => { d with transitionSchedules := v }
  | .transitionResponsibility => { d with transitionResponsibility := v }
  | .transitionParticipation => { d with transitionParticipation := v }
  | .transitionEmploymentGoal => { d with transitionEmploymentGoal := v }
  | .parentEmploymentPlan => { d with parentEmploymentPlan := v }
  | .parentEmploymentGoal => { d with parentEmploymentGoal := v }
  | .parentLivingPlan => { d with parentLivingPlan := v }
  | .parentName => { d with parentName := v }

/-- The string-valued fields of `AcademicSection` (all fields except the string-array `progressDataSources`). -/
inductive AcadField where
  | id
  | subject
  | staarProficient
  | staarDeficits
  | currentData
  | performanceComparison
  | noProgressReason
  | readingFluency
  | readingComprehension
  | mathProblemSolving
  | supportsPerformance
  | classroomStrengths
  | classroomDeficits
  | deficitsEvidence
  | withSupports
  | withoutSupports
  | peerComparisonGradeLevel
  | peerComparisonStudent
  | benchmarkPercentile
  | peerBenchmarkPercentile
  | strengthsDespiteDeficits
  | criticalNeeds
  | independentAccessImpact
  deriving DecidableEq, Repr

/-- Map a `data-field` attribute value to the AcadField it names, `none` for
any other string. -/
def AcadField.ofString (s : String) : Option AcadField :=
  match s with
  | "id" => some .id
  | "subject" => some .subject
  | "staarProficient" => some .staarProficient
  | "staarDeficits" => some .staarDeficits
  | "currentData" => some .currentData
  | "performanceComparison" => some .performanceComparison
  | "noProgressReason" => some .noProgressReason
  | "readingFluency" => some .readingFluency
  | "readingComprehension" => some .readingComprehension
  | "mathProblemSolving" => some .mathProblemSolving
  | "supportsPerformance" => some .supportsPerformance
  | "classroomStrengths" => some .classroomStrengths
  | "classroomDeficits" => some .classroomDeficits
  | "deficitsEvidence" => some .deficitsEvidence
  | "withSupports" => some .withSupports
  | "withoutSupports" => some .withoutSupports
  | "peerComparisonGradeLevel" => some .peerComparisonGradeLevel
  | "peerComparisonStudent" => some .peerComparisonStudent
  | "benchmarkPercentile" => some .benchmarkPercentile
  | "peerBenchmarkPercentile" => some .peerBenchmarkPercentile
  | "strengthsDespiteDeficits" => some .strengthsDespiteDeficits
  | "criticalNeeds" => some .criticalNeeds
  | "independentAccessImpact" => some .independentAccessImpact
  | _ => none

/-- Read the named string field of a `AcademicSection`. -/
def getAcad (d : AcademicSection) : AcadField → String
  | .id => d.id
  | .subject => d.subject
  | .staarProficient => d.staarProficient
  | .staarDeficits => d.staarDeficits
  | .currentData => d.currentData
  | .performanceComparison => d.performanceComparison
  | .noProgressReason => d.noProgressReason
  | .readingFluency => d.readingFluency
  | .readingComprehension => d.readingComprehension
  | .mathProblemSolving => d.mathProblemSolving
  | .supportsPerformance => d.supportsPerformance
  | .classroomStrengths => d.classroomStrengths
  | .classroomDeficits => d.classroomDeficits
  | .deficitsEvidence => d.deficitsEvidence
  | .withSupports => d.withSupports
  | .withoutSupports => d.withoutSupports
  | .peerComparisonGradeLevel => d.peerComparisonGradeLevel
  | .peerComparisonStudent => d.peerComparisonStudent
  | .benchmarkPercentile => d.benchmarkPercentile
  | .peerBenchmarkPercentile => d.peerBenchmarkPercentile
  | .strengthsDespiteDeficits => d.strengthsDespiteDeficits
  | .criticalNeeds => d.criticalNeeds
  | .independentAccessImpact => d.independentAccessImpact

/-- Replace the named string field of a `AcademicSection`. -/
def setAcad (d : AcademicSection) (f : AcadField) (v : String) : AcademicSection :=
  match f with
  | .id => { d with id := v }
  | .subject => { d with subject := v }
  | .staarProficient => { d with staarProficient := v }
  | .staarDeficits => { d with staarDeficits := v }
  | .currentData => { d with currentData := v }
  | .performanceComparison => { d with performanceComparison := v }
  | .noProgressReason => { d with noProgressReason := v }
  | .readingFluency => { d with readingFluency := v }
  | .readingComprehension => { d with readingComprehension := v }
  | .mathProblemSolving => { d with mathProblemSolving := v }
  | .supportsPerformance => { d with supportsPerformance := v }
  | .classroomStrengths => { d with classroomStrengths := v }
  | .classroomDeficits => { d with classroomDeficits := v }
  | .deficitsEvidence => { d with deficitsEvidence := v }
  | .withSupports => { d with withSupports := v }
  | .withoutSupports => { d with withoutSupports := v }
  | .peerComparisonGradeLevel => { d with peerComparisonGradeLevel := v }
  | .peerComparisonStudent => { d with peerComparisonStudent := v }
  | .benchmarkPercentile => { d with benchmarkPercentile := v }
  | .peerBenchmarkPercentile => { d with peerBenchmarkPercentile := v }
  | .strengthsDespiteDeficits => { d with strengthsDespiteDeficits := v }
  | .criticalNeeds => { d with criticalNeeds := v }
  | .independentAccessImpact => { d with independentAccessImpact := v }

/-- The string-valued fields of `PerformanceSummarySection` (all of them). -/
inductive SummField where
  | id
  | subject
  | passedStateAssessment
  | taksScore
  | rawScore
  | percentCorrect
  | gradeInSubject
  | accommodations
  | needs
  | receivesSpecialEdSupport
  | strengths
  deriving DecidableEq, Repr

/-- Map a `data-field` attribute value to the SummField it names, `none` for
any other string. -/
def SummField.ofString (s : String) : Option SummField :=
  match s with
  | "id" => some .id
  | "subject" => some .subject
  | "passedStateAssessment" => some .passedStateAssessment
  | "taksScore" => some .taksScore
  | "rawScore" => some .rawScore
  | "percentCorrect" => some .percentCorrect
  | "gradeInSubject" => some .gradeInSubject
  | "accommodations" => some .accommodations
  | "needs" => some .needs
  | "receivesSpecialEdSupport" => some .receivesSpecialEdSupport
  | "strengths" => some .strengths
  | _ => none

/-- Read the named string field of a `PerformanceSummarySection`. -/
def getSumm (d : PerformanceSummarySection) : SummField → String
  | .id => d.id
  | .subject => d.subject
  | .passedStateAssessment => d.passedStateAssessment
  | .taksScore => d.taksScore
  | .rawScore => d.rawScore
  | .percentCorrect => d.percentCorrect
  | .gradeInSubject => d.gradeInSubject
  | .accommodations => d.accommodations
  | .needs => d.needs
  | .receivesSpecialEdSupport => d.receivesSpecialEdSupport
  | .strengths => d.strengths

/-- Replace the named string field of a `PerformanceSummarySection`. -/
def setSumm (d : PerformanceSummarySection) (f : SummField) (v : String) : PerformanceSummarySection :=
  match f with
  | .id => { d with id := v }
  | .subject => { d with subject := v }
  | .passedStateAssessment => { d with passedStateAssessment := v }
  | .taksScore => { d with taksScore := v }
  | .rawScore => { d with rawScore := v }
  | .percentCorrect => { d with percentCorrect := v }
  | .gradeInSubject => { d with gradeInSubject := v }
  | .accommodations => { d with accommodations := v }
  | .needs => { d with needs := v }
  | .receivesSpecialEdSupport => { d with receivesSpecialEdSupport := v }
  | .strengths => { d with strengths := v }

-- --- REVERSE-SYNC (PREVIEW-EDIT) ENGINE (source lines 460-496) ---

/-- One element returned by
`querySelectorAll('.editable-field[data-field]')` over the parsed edited
markup, as `handlePreviewEdit` reads it: `dataset.field`, `dataset.index`,
`dataset.sectionType` and `innerText`. -/
structure LocatedField where
  field : String
  index : Option String
  sectionType : Option String
  value : String
  deriving DecidableEq, Repr

/-- The TYPED restriction of the body of the `fields.forEach` loop of
`handlePreviewEdit` (source lines 469-492), acting on the accumulating
`(newData, changed)` pair: the two `.ofString` misses below return `acc`,
i.e. a locator naming a key that is not a declared string field of the
record is skipped.  The source itself writes through the untyped casts
`(newData as any)[field] = value` / `(section as any)[field] = value` for
ANY `data-field` string; that full behaviour (stray keys, list-field and
`progressDataSources` clobbers, and the strict-mode TypeError raised when
a subsection locator indexes into a clobbered list) is embedded below as
`stepJs` over `JsData`.  The bridge theorem `stepJs_valid` proves that on
a locator satisfying `validLocator` — every locator the renderer emits is
of that form — `stepJs` is exactly this function, so theorems stated
about `step`/`handlePreviewEdit` under a `validLocator` hypothesis are
statements about the program. -/
def step (acc : PlaafpData × Bool) (e : LocatedField) : PlaafpData × Bool :=
  let d := acc.1
  if e.field = "" then acc
  else
    match e.index with
    | some idxStr =>
      match intIdx (parseInt10 idxStr) with
      | none => acc
      | some i =>
        if e.sectionType = some "academic" then
          match d.academicSections[i]?, AcadField.ofString e.field with
          | some sec, some f =>
            if getAcad sec f ≠ e.value then
              ({ d with academicSections :=
                   d.academicSections.set i (setAcad sec f e.value) }, true)
            else acc
          | _, _ => acc
        else if e.sectionType = some "summary" then
          match d.performanceSummarySections[i]?, SummField.ofString e.field with
          | some sec, some f =>
            if getSumm sec f ≠ e.value then
              ({ d with performanceSummarySections :=
                   d.performanceSummarySections.set i (setSumm sec f e.value) }, true)
            else acc
          | _, _ => acc
        else acc
    | none =>
      match TopField.ofString e.field with
      | some f =>
        if getTop d f ≠ e.value then (setTop d f e.value, true) else acc
      | none => acc

/-- Source `handlePreviewEdit` (lines 460-496): deep-copy the current
record (pure values need no copy), fold the located elements through
`step`, and return the updated record when anything was staged, the
previous record itself otherwise. -/
def handlePreviewEdit (currentData : PlaafpData) (fields : List LocatedField) : PlaafpData :=
  let r := fields.foldl step (currentData, false)
  if r.2 then r.1 else currentData

/-- The record component of one `step`, used to reason about the fold. -/
def apply1 (d : PlaafpData) (e : LocatedField) : PlaafpData :=
  (step (d, false) e).1

/-- Unconditional left-to-right write-back of a list of located elements. -/
def applyAll (d : PlaafpData) (es : List LocatedField) : PlaafpData :=
  es.foldl apply1 d

/-- A resolved merge key: a top-level field, or a field of the subsection
at a given index of one of the two lists. -/
inductive Target where
  | top (f : TopField)
  | acad (i : Nat) (f : AcadField)
  | summ (i : Nat) (f : SummField)
  deriving DecidableEq, Repr

/-- The merge key a located element resolves to, before the bounds check
against the current list (an out-of-range index makes the write a no-op,
mirroring `undefined` array access). -/
def targetOf (e : LocatedField) : Option Target :=
  if e.field = "" then none
  else
    match e.index with
    | some idxStr =>
      match intIdx (parseInt10 idxStr) with
      | none => none
      | some i =>
        if e.sectionType = some "academic" then
          (AcadField.ofString e.field).map (Target.acad i)
        else if e.sectionType = some "summary" then
          (SummField.ofString e.field).map (Target.summ i)
        else none
    | none => (TopField.ofString e.field).map Target.top

/-- Read the field a merge key addresses (`none` when the index no longer
resolves). -/
def getTarget (d : PlaafpData) : Target → Option String
  | .top f => some (getTop d f)
  | .acad i f => (d.academicSections[i]?).map (fun sec => getAcad sec f)
  | .summ i f => (d.performanceSummarySections[i]?).map (fun sec => getSumm sec f)

/-- Write the field a merge key addresses, a no-op when the index no
longer resolves. -/
def writeTarget (d : PlaafpData) : Target → String → PlaafpData
  | .top f, v => setTop d f v
  | .acad i f, v =>
    match d.academicSections[i]? with
    | some sec => { d with academicSections := d.academicSections.set i (setAcad sec f v) }
    | none => d
  | .summ i f, v =>
    match d.performanceSummarySections[i]? with
    | some sec => { d with performanceSummarySections := d.performanceSummarySections.set i (setSumm sec f v) }
    | none => d

/-- The live value the reconciler would compare a located element against
(`none` when the element is skipped). -/
def lookupField (d : PlaafpData) (e : LocatedField) : Option String :=
  (targetOf e).bind (getTarget d)

/-- A located element whose `data-field` names a declared string field of
its addressed entity (or whose shape the reconciler skips outright), so
that the source never writes outside the typed record for it.  Every span
the renderer emits satisfies this. -/
def validLocator (e : LocatedField) : Bool :=
  if e.field = "" then true
  else
    match e.index with
    | some _ =>
      if e.sectionType = some "academic" then (AcadField.ofString e.field).isSome
      else if e.sectionType = some "summary" then (SummField.ofString e.field).isSome
      else true
    | none => (TopField.ofString e.field).isSome

/-- A located element that stages no update against record `d`: either it
is skipped (unresolvable locator) or its live text equals the field it
addresses. -/
def matchesRecord (d : PlaafpData) (e : LocatedField) : Bool :=
  lookupField d e = some e.value || lookupField d e = none

-- --- TEMPLATE RENDERER (source lines 758-831) ---

/-- Source `editableSpan` (lines 764-769): the locator-tagged markup for
one substituted value. -/
def editableSpan (field : String) (value : String)
    (sectionType : Option String) (index : Option Nat) : String :=
  "<span class=\"editable-field\" data-field=\"" ++ field ++ "\" " ++
  (match index with
   | some n => "data-index=\"" ++ natToString n ++ "\""
   | none => "") ++ " " ++
  (match sectionType with
   | some st => "data-section-type=\"" ++ st ++ "\""
   | none => "") ++
  ">" ++ sanitize value ++ "</span>"

/-- The rendered document as an ordered sequence of literal markup pieces and editable spans; concatenating `pieceToString` over it yields exactly
the string `generatePreviewHtml` builds. -/
inductive Piece where
  | raw (s : String)
  | span (field : String) (sectionType : Option String) (index : Option Nat) (value : String)
  deriving DecidableEq, Repr

/-- Markup text of one part. -/
def pieceToString : Piece → String
  | .raw s => s
  | .span f st i v => editableSpan f v st i

/-- The `LocatedField` view a DOM parse of the rendered markup hands to
`handlePreviewEdit`: the spans in document order, `data-index` printed in
decimal, and `innerText` equal to the pre-escaping value (HTML parsing
undoes `sanitize` on text content). -/
def extractFields (parts : List Piece) : List LocatedField :=
  parts.filterMap fun
    | .raw _ => none
    | .span f st i v => some ⟨f, i.map natToString, st, v⟩
/-- Source lines 776-779: the introductory blocks of `generatePreviewHtml`. -/
def introParts (data : PlaafpData) (studentName : String) : List Piece :=
  [ .raw "<strong>Introductory Paragraph</strong>",
    .raw "<p>",
    .span "studentName" none none studentName,
    .raw " is a ",
    .span "grade" none none (fill data.grade "grade"),
    .raw " grade student diagnosed with a ",
    .span "disabilities" none none (fill data.disabilities "disability(ies)"),
    .raw " disability(ies). ",
    .raw (sanitize studentName),
    .raw " is currently receiving enrolled grade-level instruction in ",
    .span "subjects" none none (fill data.subjects "subjects/courses"),
    .raw " in the general education classroom. ",
    .raw (sanitize (fillPossessive data.studentName studentName)),
    .raw " full individual evaluation indicates that ",
    .raw (fillPronoun data.studentName "he/she"),
    .raw " has cognitive deficits in ",
    .span "cognitiveDeficits" none none (fill data.cognitiveDeficits "cognitive areas"),
    .raw " and academic deficits in ",
    .span "academicDeficits" none none (fill data.academicDeficits "academic areas"),
    .raw ".</p>",
    .raw "<p>The student\u201A\u00C4\u00F4s disability affects their ability to ",
    .span "disabilityImpact" none none (fill data.disabilityImpact "describe impact on access/progress"),
    .raw ". These deficits are noted as ",
    .raw (if data.deficitType ≠ "" then capFirst data.deficitType else "\u201A\u00F2\u00EA normative \u201A\u00F2\u00EA relative"),
    .raw " according to cognitive and achievement assessments.</p>",
    .raw "<p>Currently, ",
    .raw (sanitize studentName),
    .raw " receives ",
    .span "specialEdSupport" none none (fill data.specialEdSupport "special education/resource support"),
    .raw " and ",
    .span "relatedServices" none none (fill data.relatedServices "related services"),
    .raw " with accommodations including ",
    .span "accommodations" none none (fill data.accommodations "list of accommodations"),
    .raw ".</p>" ]

/-- Source lines 782-786: the block group rendered for the academic subsection `s` at position `i`. -/
def acadSectionParts (data : PlaafpData) (studentName : String) (i : Nat) (s : AcademicSection) : List Piece :=
  [ .raw "<strong>Academics: ",
    .raw (sanitize (jsOr s.subject ("(Subject " ++ natToString (i + 1) ++ ")"))),
    .raw "</strong>",
    .raw "<p>On the spring STAAR ",
    .span "subject" (some "academic") (some i) (fill s.subject "subject/course"),
    .raw " assessment, ",
    .raw (sanitize studentName),
    .raw " was relatively proficient in ",
    .span "staarProficient" (some "academic") (some i) (fill s.staarProficient "TEKS Student Expectations"),
    .raw ". ",
    .raw (sanitize studentName),
    .raw " demonstrated deficits in ",
    .span "staarDeficits" (some "academic") (some i) (fill s.staarDeficits "Student Essential Outcome or TEKS"),
    .raw ".</p>",
    .raw "<p>Baseline data shows that ",
    .raw (sanitize studentName),
    .raw " performs at ",
    .span "readingFluency" (some "academic") (some i) (fill s.readingFluency "score/percentile"),
    .raw " in reading fluency, ",
    .span "readingComprehension" (some "academic") (some i) (fill s.readingComprehension "score/percentile"),
    .raw " in reading comprehension, and ",
    .span "mathProblemSolving" (some "academic") (some i) (fill s.mathProblemSolving "score/percentile"),
    .raw " in math problem-solving.</p>",
    .raw "<p>In the classroom setting, ",
    .raw (sanitize studentName),
    .raw " is able to ",
    .span "classroomStrengths" (some "academic") (some i) (fill s.classroomStrengths "strengths"),
    .raw ". However, ",
    .raw (fillPronoun data.studentName "he/she"),
    .raw " demonstrates deficits in the classroom in ",
    .span "classroomDeficits" (some "academic") (some i) (fill s.classroomDeficits "needs\u201A\u00C4\u00EEaligned with STAAR weak areas"),
    .raw ", as evidenced by ",
    .span "deficitsEvidence" (some "academic") (some i) (fill s.deficitsEvidence "work samples, CBM, rubrics"),
    .raw ".</p>",
    .raw "<p>Critical areas of need remain ",
    .span "criticalNeeds" (some "academic") (some i) (fill s.criticalNeeds "area"),
    .raw ", which affect independent access to the grade-level curriculum.</p>" ]

/-- Source lines 789-790: the functional block. -/
def functionalParts (data : PlaafpData) (studentName : String) : List Piece :=
  [ .raw "<strong>Functional</strong>",
    .raw "<p>According to ",
    .span "functionalDataSource" none none (fill data.functionalDataSource "teacher information, observation, etc."),
    .raw ", ",
    .raw (sanitize studentName),
    .raw " has strengths in ",
    .span "functionalStrengths" none none (fill data.functionalStrengths "functional strengths"),
    .raw ". However, according to the same sources, ",
    .raw (sanitize studentName),
    .raw " has deficits in ",
    .span "functionalDeficits" none none (fill data.functionalDeficits "functional deficits and data"),
    .raw ". At this time, these functional deficits are negatively impacting ",
    .raw (sanitize (fillPossessive data.studentName studentName)),
    .raw " rate of progress by ",
    .span "functionalImpact" none none (fill data.functionalImpact "describe impact"),
    .raw ".</p>" ]

/-- Source lines 792-795: the transition block. -/
def transitionParts (data : PlaafpData) (studentName parentName : String) : List Piece :=
  [ .raw "<strong>Transition (Secondary)</strong>",
    .raw "<p>According to teacher survey and classroom observation, ",
    .raw (sanitize studentName),
    .raw " was relatively proficient in ",
    .span "transitionStrengths" none none (fill data.transitionStrengths "strengths - Life Skills, Community experiences, etc."),
    .raw ". In order to progress in independent living, employment, post-secondary educational training, and community experiences ",
    .raw (sanitize studentName),
    .raw " will need support in ",
    .span "transitionSupportNeeds" none none (fill data.transitionSupportNeeds "support areas"),
    .raw ".</p>",
    .raw "<p>",
    .raw (sanitize studentName),
    .raw " would like to work in the ",
    .span "transitionEmploymentGoal" none none (fill data.transitionEmploymentGoal "area of employment"),
    .raw " after high school.</p>",
    .raw "<p>",
    .span "parentName" none none parentName,
    .raw " plans for him/her to work ",
    .span "parentEmploymentPlan" none none (fill data.parentEmploymentPlan "full or part"),
    .raw " time when he/she graduates. ",
    .span "parentName" none none parentName,
    .raw " would like to see ",
    .raw (sanitize studentName),
    .raw " work in ",
    .span "parentEmploymentGoal" none none (fill data.parentEmploymentGoal "employment area"),
    .raw " industry after their educational career. ",
    .span "parentName" none none parentName,
    .raw " is planning for ",
    .raw (sanitize studentName),
    .raw " to live ",
    .span "parentLivingPlan" none none (fill data.parentLivingPlan "with a friend / independently / at home"),
    .raw " after educational career.</p>" ]

/-- Source line 800: the block rendered for the performance-summary subsection `s` at position `i`. -/
def summSectionParts (data : PlaafpData) (studentName : String) (i : Nat) (s : PerformanceSummarySection) : List Piece :=
  [ .raw "<p>",
    .raw (sanitize studentName),
    .raw " ",
    .span "passedStateAssessment" (some "summary") (some i) (fill s.passedStateAssessment "passed/did not pass"),
    .raw " the ",
    .span "subject" (some "summary") (some i) (fill s.subject "subject"),
    .raw " state assessment with a performance of ",
    .span "taksScore" (some "summary") (some i) (fill s.taksScore "TAKS score"),
    .raw ", obtaining a raw score of ",
    .span "rawScore" (some "summary") (some i) (fill s.rawScore "raw score"),
    .raw " which was ",
    .span "percentCorrect" (some "summary") (some i) (fill s.percentCorrect "% correct"),
    .raw " correct. ",
    .raw (sanitize studentName),
    .raw " is currently making or made a ",
    .span "gradeInSubject" (some "summary") (some i) (fill s.gradeInSubject "grade in subject"),
    .raw ". ",
    .raw (sanitize studentName),
    .raw " requires accommodations/modifications/assistive technology of ",
    .span "accommodations" (some "summary") (some i) (fill s.accommodations "accommodations/assist tech"),
    .raw " due to his/her disability and ",
    .span "needs" (some "summary") (some i) (fill s.needs "needs"),
    .raw ". ",
    .raw (sanitize (fillPronoun data.studentName "He/She")),
    .raw " ",
    .span "receivesSpecialEdSupport" (some "summary") (some i) (fill s.receivesSpecialEdSupport "receives/does not receive"),
    .raw " special education support in ",
    .span "subject" (some "summary") (some i) s.subject,
    .raw ". In ",
    .span "subject" (some "summary") (some i) (fill s.subject "subject"),
    .raw " ",
    .raw (sanitize studentName),
    .raw " exhibits skills of ",
    .span "strengths" (some "summary") (some i) (fill s.strengths "PLAAFP strengths for subject"),
    .raw ".</p>" ]

/-- The `data.academicSections.forEach((section, index) => ...)` loop of
`generatePreviewHtml` (source lines 781-787), carrying the running index. -/
def acadAllParts (data : PlaafpData) (studentName : String) : Nat → List AcademicSection → List Piece
  | _, [] => []
  | i, s :: rest =>
    acadSectionParts data studentName i s ++ acadAllParts data studentName (i + 1) rest

/-- The `data.performanceSummarySections.forEach` loop (source lines
799-801). -/
def summAllParts (data : PlaafpData) (studentName : String) : Nat → List PerformanceSummarySection → List Piece
  | _, [] => []
  | i, s :: rest =>
    summSectionParts data studentName i s ++ summAllParts data studentName (i + 1) rest

/-- The rendered document of `generatePreviewHtml` (source lines 761-805)
as its sequence of pieces, in document order. -/
def generatePreviewParts (data : PlaafpData) : List Piece :=
  let studentName := jsOr data.studentName "______ (student name)"
  let parentName := jsOr data.parentName "______ (parent name)"
  introParts data studentName ++
  acadAllParts data studentName 0 data.academicSections ++
  functionalParts data studentName ++
  transitionParts data studentName parentName ++
  (if data.performanceSummarySections.length > 0 then
    Piece.raw "<strong>Summary of Performance</strong>" ::
      summAllParts data studentName 0 data.performanceSummarySections
  else [])

/-- Source `generatePreviewHtml` (lines 761-805): the markup string,
`htmlParts.join('')`. -/
def generatePreviewHtml (data : PlaafpData) : String :=
  String.join ((generatePreviewParts data).map pieceToString)

-- --- WRITE-BACK NORMAL FORMS (used to state and prove the claims) ---

/-- The academic subsection `handlePreviewEdit` produces when fed the
unedited rendering of `s`: every rendered field is replaced by the span
text the renderer produced for it (`fill` of the old value). -/
def normAcadSection (s : AcademicSection) : AcademicSection :=
  { s with
    subject := fill s.subject "subject/course",
    staarProficient := fill s.staarProficient "TEKS Student Expectations",
    staarDeficits := fill s.staarDeficits "Student Essential Outcome or TEKS",
    readingFluency := fill s.readingFluency "score/percentile",
    readingComprehension := fill s.readingComprehension "score/percentile",
    mathProblemSolving := fill s.mathProblemSolving "score/percentile",
    classroomStrengths := fill s.classroomStrengths "strengths",
    classroomDeficits := fill s.classroomDeficits "needs‚Äîaligned with STAAR weak areas",
    deficitsEvidence := fill s.deficitsEvidence "work samples, CBM, rubrics",
    criticalNeeds := fill s.criticalNeeds "area" }

/-- The performance-summary subsection `handlePreviewEdit` produces when
fed the unedited rendering of `s`; the `subject` span occurs three times
and the last occurrence (a `fill`) wins. -/
def normSummSection (s : PerformanceSummarySection) : PerformanceSummarySection :=
  { s with
    subject := fill s.subject "subject",
    passedStateAssessment := fill s.passedStateAssessment "passed/did not pass",
    taksScore := fill s.taksScore "TAKS score",
    rawScore := fill s.rawScore "raw score",
    percentCorrect := fill s.percentCorrect "% correct",
    gradeInSubject := fill s.gradeInSubject "grade in subject",
    accommodations := fill s.accommodations "accommodations/assist tech",
    needs := fill s.needs "needs",
    receivesSpecialEdSupport := fill s.receivesSpecialEdSupport "receives/does not receive",
    strengths := fill s.strengths "PLAAFP strengths for subject" }

/-- The record `handlePreviewEdit` produces when fed the unedited
rendering of `data`: every span value is written back over its field.
Fields never rendered in a span (`deficitType`, the four unrendered
transition fields, the unrendered subsection fields and the ids) keep
their values. -/
def normalizeRecord (data : PlaafpData) : PlaafpData :=
  { data with
    studentName := jsOr data.studentName "______ (student name)",
    grade := fill data.grade "grade",
    disabilities := fill data.disabilities "disability(ies)",
    subjects := fill data.subjects "subjects/courses",
    cognitiveDeficits := fill data.cognitiveDeficits "cognitive areas",
    academicDeficits := fill data.academicDeficits "academic areas",
    disabilityImpact := fill data.disabilityImpact "describe impact on access/progress",
    specialEdSupport := fill data.specialEdSupport "special education/resource support",
    relatedServices := fill data.relatedServices "related services",
    accommodations := fill data.accommodations "list of accommodations",
    academicSections := data.academicSections.map normAcadSection,
    functionalDataSource := fill data.functionalDataSource "teacher information, observation, etc.",
    functionalStrengths := fill data.functionalStrengths "functional strengths",
    functionalDeficits := fill data.functionalDeficits "functional deficits and data",
    functionalImpact := fill data.functionalImpact "describe impact",
    transitionStrengths := fill data.transitionStrengths "strengths - Life Skills, Community experiences, etc.",
    transitionSupportNeeds := fill data.transitionSupportNeeds "support areas",
    transitionEmploymentGoal := fill data.transitionEmploymentGoal "area of employment",
    parentName := jsOr data.parentName "______ (parent name)",
    parentEmploymentPlan := fill data.parentEmploymentPlan "full or part",
    parentEmploymentGoal := fill data.parentEmploymentGoal "employment area",
    parentLivingPlan := fill data.parentLivingPlan "with a friend / independently / at home",
    performanceSummarySections := data.performanceSummarySections.map normSummSection }


/-- Does the `data-index` attribute string resolve to a valid position in a
list of length `len` the way the reconciler resolves it (`parseInt`, then
array access)? -/
def idxResolves (len : Nat) (ixs : String) : Bool :=
  match intIdx (parseInt10 ixs) with
  | some i => i < len
  | none => false

/-- A subsection locator whose index does not resolve against record `R`:
beyond the current list length, negative, or unparseable as a number. -/
def invalidSubsectionIndex (R : PlaafpData) (e : LocatedField) : Bool :=
  match e.index with
  | none => false
  | some ixs =>
    if e.sectionType = some "academic" then !(idxResolves R.academicSections.length ixs)
    else if e.sectionType = some "summary" then !(idxResolves R.performanceSummarySections.length ixs)
    else false

/-- An empty-value placeholder of the shape `(explanatory placeholder text)`. -/
def placeholderShape (v : String) : Bool :=
  (v.data.head? = some '(') && (v.data.getLast? = some ')')

/-- Sample record used as a concrete input for several witnesses: nonempty
student name and one subsection of each kind with a trimmed, nonempty
subject. -/
def sampleRecord : PlaafpData :=
  { initialPlaafpData with
    studentName := "Jordan",
    academicSections := [{ initialAcademicSection "a1" with subject := "Math" }],
    performanceSummarySections := [{ initialPerformanceSummarySection "p1" with subject := "Reading" }] }

/-- Sample record with one freshly added academic section. -/
def oneSectionRecord : PlaafpData :=
  { initialPlaafpData with academicSections := [initialAcademicSection "A"] }

/-- Record whose student name is markup-significant text. -/
def scriptNameRecord : PlaafpData :=
  { initialPlaafpData with studentName := "<script>" }

/-- Record whose deficit-type field is markup-significant text. -/
def scriptDeficitRecord : PlaafpData :=
  { initialPlaafpData with deficitType := "<script>" }

-- --- THE UNTYPED RECONCILER (the same source lines 460-496, without the
-- typed restriction) ---

/-- First value stored under string key `k` (writes cons to the front, so
the first hit is the most recent: JS last-write-wins reads). -/
def lookupKey (l : List (String × String)) (k : String) : Option String :=
  match l.find? (fun p => p.1 == k) with
  | some p => some p.2
  | none => none

/-- Most recent value stored under `(i, k)`. -/
def lookupIdxKey (l : List (Nat × String × String)) (i : Nat) (k : String) : Option String :=
  match l.find? (fun t => t.1 == i && t.2.1 == k) with
  | some t => some t.2.2
  | none => none

/-- Most recent value stored under index `i`. -/
def lookupIdx (l : List (Nat × String)) (i : Nat) : Option String :=
  match l.find? (fun p => p.1 == i) with
  | some p => some p.2
  | none => none

/-- The mutable `newData` object of `handlePreviewEdit` as the untyped
source can leave it: the declared shape (`data`), plus everything the
`(newData as any)[field] = value` / `(section as any)[field] = value`
writes can add outside that shape — the two list keys overwritten with a
string (`acadClobber`/`summClobber`; once a list key holds a string it can
only be compared with and overwritten by strings), a section's
`progressDataSources` array overwritten with a string (`acadProgress`,
keyed by section index), stray string keys on a section object
(`acadExtra`/`summExtra`) and stray top-level string keys (`extra`).
A clean copy of a well-formed record is `fromData`. -/
structure JsData where
  data : PlaafpData
  acadClobber : Option String
  summClobber : Option String
  acadProgress : List (Nat × String)
  acadExtra : List (Nat × String × String)
  summExtra : List (Nat × String × String)
  extra : List (String × String)
  deriving DecidableEq, Repr

/-- `JSON.parse(JSON.stringify(currentData))` on a well-formed record:
the declared shape and nothing outside it. -/
def fromData (d : PlaafpData) : JsData :=
  ⟨d, none, none, [], [], [], []⟩

/-- Reading property `f` of a one-character JS string primitive `c` (an
element of a clobbered list key) and comparing it with the string `v`:
`c["0"]` is the character itself (the only array index of a
one-character string), `c.length` is a number and every other property is
`undefined`, and a number or `undefined` is never strictly equal to a
string.  When this is `true` the source goes on to assign the property,
and a property assignment on a primitive throws a TypeError in strict
mode (the file is an ES module). -/
def charPropNe (c : Char) (f v : String) : Bool :=
  !(f == "0" && String.mk [c] == v)

/-- The body of the `fields.forEach` loop of `handlePreviewEdit` (source
lines 469-492) over the untyped object, `Except.error ()` for the
strict-mode TypeError path.  String indexing of a clobbered list key is
by code point (`s.data[i]?`) where JS indexes by UTF-16 unit; the two
agree on the basic-plane strings involved here.  Inherited
`Object.prototype` properties read through `(o as any)[field]` are
functions or objects, never strings, so they compare unequal to the text
and the assignment shadows them with an own key, as the stray-key
branches record — except `data-field="__proto__"`, whose assignment JS
silently drops while still setting `changed`; the model records the key,
and no theorem below depends on that stored difference. -/
def stepJs (acc : JsData × Bool) (e : LocatedField) : Except Unit (JsData × Bool) :=
  let J := acc.1
  if e.field = "" then .ok acc
  else
    match e.index with
    | some idxStr =>
      if e.sectionType = some "academic" then
        match intIdx (parseInt10 idxStr) with
        | none => .ok acc
        | some i =>
          match J.acadClobber with
          | some s =>
            match s.data[i]? with
            | some c => if charPropNe c e.field e.value then .error () else .ok acc
            | none => .ok acc
          | none =>
            match J.data.academicSections[i]? with
            | none => .ok acc
            | some sec =>
              match AcadField.ofString e.field with
              | some f =>
                if getAcad sec f ≠ e.value then
                  let l2 := J.data.academicSections.set i (setAcad sec f e.value)
                  .ok ({ J with data := { J.data with academicSections := l2 } }, true)
                else .ok acc
              | none =>
                if e.field = "progressDataSources" then
                  match lookupIdx J.acadProgress i with
                  | some s =>
                    if s ≠ e.value then
                      .ok ({ J with acadProgress := (i, e.value) :: J.acadProgress }, true)
                    else .ok acc
                  | none =>
                    .ok ({ J with acadProgress := (i, e.value) :: J.acadProgress }, true)
                else
                  match lookupIdxKey J.acadExtra i e.field with
                  | some s =>
                    if s ≠ e.value then
                      .ok ({ J with acadExtra := (i, e.field, e.value) :: J.acadExtra }, true)
                    else .ok acc
                  | none =>
                    .ok ({ J with acadExtra := (i, e.field, e.value) :: J.acadExtra }, true)
      else if e.sectionType = some "summary" then
        match intIdx (parseInt10 idxStr) with
        | none => .ok acc
        | some i =>
          match J.summClobber with
          | some s =>
            match s.data[i]? with
            | some c => if charPropNe c e.field e.value then .error () else .ok acc
            | none => .ok acc
          | none =>
            match J.data.performanceSummarySections[i]? with
            | none => .ok acc
            | some sec =>
              match SummField.ofString e.field with
              | some f =>
                if getSumm sec f ≠ e.value then
                  let l2 := J.data.performanceSummarySections.set i (setSumm sec f e.value)
                  .ok ({ J with data := { J.data with performanceSummarySections := l2 } }, true)
                else .ok acc
              | none =>
                match lookupIdxKey J.summExtra i e.field with
                | some s =>
                  if s ≠ e.value then
                    .ok ({ J with summExtra := (i, e.field, e.value) :: J.summExtra }, true)
                  else .ok acc
                | none =>
                  .ok ({ J with summExtra := (i, e.field, e.value) :: J.summExtra }, true)
      else .ok acc
    | none =>
      match TopField.ofString e.field with
      | some f =>
        if getTop J.data f ≠ e.value then .ok ({ J with data := setTop J.data f e.value }, true)
        else .ok acc
      | none =>
        if e.field = "academicSections" then
          match J.acadClobber with
          | some s =>
            if s ≠ e.value then .ok ({ J with acadClobber := some e.value }, true) else .ok acc
          | none => .ok ({ J with acadClobber := some e.value }, true)
        else if e.field = "performanceSummarySections" then
          match J.summClobber with
          | some s =>
            if s ≠ e.value then .ok ({ J with summClobber := some e.value }, true) else .ok acc
          | none => .ok ({ J with summClobber := some e.value }, true)
        else
          match lookupKey J.extra e.field with
          | some s =>
            if s ≠ e.value then .ok ({ J with extra := (e.field, e.value) :: J.extra }, true)
            else .ok acc
          | none => .ok ({ J with extra := (e.field, e.value) :: J.extra }, true)

/-- The `fields.forEach` loop run left to right, stopping at a raised
TypeError. -/
def runJs (acc : JsData × Bool) : List LocatedField → Except Unit (JsData × Bool)
  | [] => .ok acc
  | e :: rest =>
    match stepJs acc e with
    | .error u => .error u
    | .ok acc2 => runJs acc2 rest

/-- Source `handlePreviewEdit` (lines 460-496) over the untyped object:
the object the handler stores when anything was staged, the clean copy of
the previous record when nothing was (the source returns `currentData`
itself), `Except.error ()` when the loop raises. -/
def handlePreviewEditJs (currentData : PlaafpData) (fields : List LocatedField) :
    Except Unit JsData :=
  match runJs (fromData currentData, false) fields with
  | .error u => .error u
  | .ok (J, changed) => .ok (if changed then J else fromData currentData)

/-- Whether the reconciler raised. -/
def jsRaises (r : Except Unit JsData) : Bool :=
  match r with
  | .error _ => true
  | .ok _ => false

/-- The full rendered markup of the empty record, edited in exactly one
located span: the student-name span's text replaced by "Jordan", every
other span left at its rendered text. -/
def editedInitialRender : List LocatedField :=
  (extractFields (generatePreviewParts initialPlaafpData)).map
    (fun e => if e.field == "studentName" then ⟨e.field, e.index, e.sectionType, "Jordan"⟩ else e)

-- === THEOREMS ===

-- --- Generic list and trim lemmas ---

theorem dropWhile_dropWhile (p : Char → Bool) (l : List Char) :
    (l.dropWhile p).dropWhile p = l.dropWhile p := by
  induction l with
  | nil => rfl
  | cons a t ih =>
    by_cases h : p a
    · simp [List.dropWhile_cons, h, ih]
    · simp [List.dropWhile_cons, h]

theorem dropWhile_eq_self_of_head (p : Char → Bool) (l : List Char)
    (h : ∀ c, l.head? = some c → p c = false) : l.dropWhile p = l := by
  cases l with
  | nil => rfl
  | cons a t => simp [List.dropWhile_cons, h a rfl]

theorem dropWhile_eq_self_of_all (p : Char → Bool) (l : List Char)
    (h : ∀ c ∈ l, p c = false) : l.dropWhile p = l := by
  cases l with
  | nil => rfl
  | cons a t => simp [List.dropWhile_cons, h a (by simp)]

theorem dropWhile_cons_false (p : Char → Bool) (x : Char) (xs : List Char)
    (h : p x = false) : (x :: xs).dropWhile p = x :: xs := by
  simp [List.dropWhile_cons, h]

theorem head_dropWhile_false (p : Char → Bool) (l : List Char) (c : Char)
    (h : (l.dropWhile p).head? = some c) : p c = false := by
  induction l with
  | nil => simp at h
  | cons a t ih =>
    by_cases ha : p a
    · rw [List.dropWhile_cons, if_pos ha] at h; exact ih h
    · rw [List.dropWhile_cons, if_neg ha] at h
      simp at h
      subst h
      simpa using ha

theorem trimChars_idem (l : List Char) : trimChars (trimChars l) = trimChars l := by
  unfold trimChars
  set A := l.dropWhile jsWhitespace with hA
  set u := A.reverse.dropWhile jsWhitespace with hu
  have hsuffix : ∃ v, A.reverse = v ++ u := by
    refine ⟨A.reverse.takeWhile jsWhitespace, ?_⟩
    rw [hu, List.takeWhile_append_dropWhile]
  have hhead : ∀ c, u.reverse.head? = some c → jsWhitespace c = false := by
    intro c hc
    obtain ⟨v, hv⟩ := hsuffix
    have hA' : A = u.reverse ++ v.reverse := by
      have := congrArg List.reverse hv
      simpa using this
    have hc2 : A.head? = some c := by
      rw [hA']
      cases hur : u.reverse with
      | nil => rw [hur] at hc; simp at hc
      | cons x xs =>
        rw [hur] at hc
        simp at hc
        subst hc
        simp
    exact head_dropWhile_false jsWhitespace l c (hA ▸ hc2)
  have h1 : u.reverse.dropWhile jsWhitespace = u.reverse :=
    dropWhile_eq_self_of_head _ _ hhead
  rw [h1, List.reverse_reverse, dropWhile_dropWhile]

theorem jsTrim_idem (s : String) : jsTrim (jsTrim s) = jsTrim s := by
  unfold jsTrim
  exact congrArg String.mk (trimChars_idem s.data)

theorem data_append (s t : String) : (s ++ t).data = s.data ++ t.data := rfl

theorem paren_data (p : String) :
    ("(" ++ p ++ ")" : String).data = '(' :: (p.data ++ [')']) := by
  rw [data_append, data_append]
  rfl

theorem jsTrim_paren (p : String) : jsTrim ("(" ++ p ++ ")") = "(" ++ p ++ ")" := by
  have key : trimChars (("(" ++ p ++ ")" : String).data) = ("(" ++ p ++ ")" : String).data := by
    rw [paren_data]
    unfold trimChars
    rw [dropWhile_cons_false _ _ _ (by decide)]
    rw [show ('(' :: (p.data ++ [')'])).reverse = ')' :: (p.data.reverse ++ ['(']) from by simp]
    rw [dropWhile_cons_false _ _ _ (by decide)]
    rw [show (')' :: (p.data.reverse ++ ['('])) = ('(' :: (p.data ++ [')'])).reverse from by simp]
    rw [List.reverse_reverse]
  unfold jsTrim
  rw [key]

theorem paren_ne_empty (p : String) : ("(" ++ p ++ ")" : String) ≠ "" := by
  intro h
  have := congrArg String.data h
  rw [paren_data] at this
  simp at this

theorem fill_of_trim_ne (v p : String) (h : jsTrim v ≠ "") : fill v p = jsTrim v := by
  unfold fill; rw [if_pos h]

theorem fill_of_trim_eq (v p : String) (h : jsTrim v = "") :
    fill v p = "(" ++ p ++ ")" := by
  unfold fill; rw [if_neg (by simpa using h)]

theorem fill_fill (v p : String) : fill (fill v p) p = fill v p := by
  by_cases h : jsTrim v = ""
  · rw [fill_of_trim_eq v p h, fill_of_trim_ne _ _ (by rw [jsTrim_paren]; exact paren_ne_empty p),
      jsTrim_paren]
  · rw [fill_of_trim_ne v p h, fill_of_trim_ne _ _ (by rw [jsTrim_idem]; exact h), jsTrim_idem]

theorem fill_self (v p : String) (h1 : jsTrim v = v) (h2 : v ≠ "") : fill v p = v := by
  rw [fill_of_trim_ne v p (by rw [h1]; exact h2), h1]

theorem jsOr_of_ne (a b : String) (h : a ≠ "") : jsOr a b = a := by
  unfold jsOr; rw [if_neg h]

theorem jsOr_idem (a b : String) (h : b ≠ "") : jsOr (jsOr a b) b = jsOr a b := by
  unfold jsOr
  by_cases ha : a = ""
  · simp [ha, h]
  · simp [ha]

-- --- Decimal printing and parsing roundtrip ---

theorem digitChar_mem (n : Nat) :
    digitChar n ∈ ['0','1','2','3','4','5','6','7','8','9'] := by
  rcases n with _|_|_|_|_|_|_|_|_|_|m <;> simp [digitChar]

theorem digitVal_digitChar (n : Nat) (h : n < 10) : digitVal (digitChar n) = n := by
  rcases n with _|_|_|_|_|_|_|_|_|_|m
  · decide
  · decide
  · decide
  · decide
  · decide
  · decide
  · decide
  · decide
  · decide
  · decide
  · omega

theorem mem_digits_isDigit (c : Char)
    (h : c ∈ ['0','1','2','3','4','5','6','7','8','9']) : c.isDigit = true := by
  fin_cases h <;> decide

theorem mem_digits_not_ws (c : Char)
    (h : c ∈ ['0','1','2','3','4','5','6','7','8','9']) : jsWhitespace c = false := by
  fin_cases h <;> decide

theorem mem_digits_not_sign (c : Char)
    (h : c ∈ ['0','1','2','3','4','5','6','7','8','9']) : c ≠ '-' ∧ c ≠ '+' := by
  fin_cases h <;> exact ⟨by decide, by decide⟩

theorem natDigits_mem (n : Nat) :
    ∀ c ∈ natDigits n, c ∈ ['0','1','2','3','4','5','6','7','8','9'] := by
  induction n using Nat.strong_induction_on with
  | _ n ih =>
    rw [natDigits]
    by_cases h : n < 10
    · rw [dif_pos h]
      intro c hc
      simp at hc
      exact hc ▸ digitChar_mem n
    · rw [dif_neg h]
      intro c hc
      rcases List.mem_append.mp hc with h1 | h2
      · exact ih (n / 10) (Nat.div_lt_self (by omega) (by omega)) c h1
      · simp at h2
        exact h2 ▸ digitChar_mem (n % 10)

theorem natDigits_ne_nil (n : Nat) : natDigits n ≠ [] := by
  rw [natDigits]
  by_cases h : n < 10
  · rw [dif_pos h]; simp
  · rw [dif_neg h]; simp

theorem digitsToNat_append (l : List Char) (c : Char) :
    digitsToNat (l ++ [c]) = 10 * digitsToNat l + digitVal c := by
  unfold digitsToNat
  rw [List.foldl_append]
  rfl

theorem digitsToNat_natDigits (n : Nat) : digitsToNat (natDigits n) = n := by
  induction n using Nat.strong_induction_on with
  | _ n ih =>
    rw [natDigits]
    by_cases h : n < 10
    · rw [dif_pos h]
      show digitsToNat ([] ++ [digitChar n]) = n
      rw [digitsToNat_append]
      simp [digitsToNat, digitVal_digitChar n h]
    · rw [dif_neg h]
      rw [digitsToNat_append, ih (n / 10) (Nat.div_lt_self (by omega) (by omega)),
        digitVal_digitChar (n % 10) (by omega)]
      omega

theorem takeWhile_all_eq (p : Char → Bool) (l : List Char)
    (h : ∀ c ∈ l, p c = true) : l.takeWhile p = l := by
  induction l with
  | nil => rfl
  | cons a t ih =>
    rw [List.takeWhile_cons, if_pos (h a (by simp))]
    rw [ih (fun c hc => h c (by simp [hc]))]

theorem parseInt10_natToString (n : Nat) : parseInt10 (natToString n) = some (n : Int) := by
  unfold parseInt10 natToString
  have hdata : (String.mk (natDigits n)).data = natDigits n := rfl
  rw [hdata]
  rw [dropWhile_eq_self_of_all _ _ (fun c hc => mem_digits_not_ws c (natDigits_mem n c hc))]
  obtain ⟨c, rest, hcr⟩ : ∃ c rest, natDigits n = c :: rest := by
    cases h : natDigits n with
    | nil => exact absurd h (natDigits_ne_nil n)
    | cons a t => exact ⟨a, t, rfl⟩
  rw [hcr]
  dsimp only
  have hmem : c ∈ ['0','1','2','3','4','5','6','7','8','9'] :=
    natDigits_mem n c (by rw [hcr]; simp)
  obtain ⟨hm, hp⟩ := mem_digits_not_sign c hmem
  rw [if_neg hm, if_neg hp]
  unfold leadingDigits
  rw [show (c :: rest) = natDigits n from hcr.symm]
  rw [takeWhile_all_eq _ _ (fun d hd => mem_digits_isDigit d (natDigits_mem n d hd))]
  rw [if_neg (natDigits_ne_nil n), digitsToNat_natDigits]
  simp

theorem intIdx_parseInt10_natToString (n : Nat) :
    intIdx (parseInt10 (natToString n)) = some n := by
  rw [parseInt10_natToString]
  show (if (0 : Int) ≤ (n : Int) then some ((n : Int)).toNat else none) = some n
  rw [if_pos (by omega)]
  simp

-- --- Sanitize lemmas ---

theorem escapeChar_no_lt (c : Char) : '<' ∉ escapeChar c := by
  unfold escapeChar
  by_cases h1 : c = '&'
  · rw [if_pos h1]; decide
  · rw [if_neg h1]
    by_cases h2 : c = '<'
    · rw [if_pos h2]; decide
    · rw [if_neg h2]
      by_cases h3 : c = '>'
      · rw [if_pos h3]; decide
      · rw [if_neg h3]
        simp
        exact fun hc => h2 hc.symm

theorem escapeChar_no_gt (c : Char) : '>' ∉ escapeChar c := by
  unfold escapeChar
  by_cases h1 : c = '&'
  · rw [if_pos h1]; decide
  · rw [if_neg h1]
    by_cases h2 : c = '<'
    · rw [if_pos h2]; decide
    · rw [if_neg h2]
      by_cases h3 : c = '>'
      · rw [if_pos h3]; decide
      · rw [if_neg h3]
        simp
        exact fun hc => h3 hc.symm

theorem sanitize_no_lt (s : String) : '<' ∉ (sanitize s).data := by
  unfold sanitize
  intro h
  simp at h
  obtain ⟨l, hl, hc⟩ := h
  exact escapeChar_no_lt l hc

theorem sanitize_no_gt (s : String) : '>' ∉ (sanitize s).data := by
  unfold sanitize
  intro h
  simp at h
  obtain ⟨l, hl, hc⟩ := h
  exact escapeChar_no_gt l hc

-- --- Field get/set algebra ---

theorem getTop_setTop_self (d : PlaafpData) (f : TopField) (v : String) :
    getTop (setTop d f v) f = v := by
  cases f <;> rfl

theorem getTop_setTop_ne (d : PlaafpData) (f g : TopField) (v : String) (h : f ≠ g) :
    getTop (setTop d f v) g = getTop d g := by
  cases f <;> cases g <;> first | rfl | exact absurd rfl h

theorem setTop_getTop (d : PlaafpData) (f : TopField) :
    setTop d f (getTop d f) = d := by
  cases f <;> rfl

theorem setTop_setTop (d : PlaafpData) (f : TopField) (v w : String) :
    setTop (setTop d f v) f w = setTop d f w := by
  cases f <;> rfl

theorem getAcad_setAcad_self (d : AcademicSection) (f : AcadField) (v : String) :
    getAcad (setAcad d f v) f = v := by
  cases f <;> rfl

theorem getAcad_setAcad_ne (d : AcademicSection) (f g : AcadField) (v : String) (h : f ≠ g) :
    getAcad (setAcad d f v) g = getAcad d g := by
  cases f <;> cases g <;> first | rfl | exact absurd rfl h

theorem setAcad_getAcad (d : AcademicSection) (f : AcadField) :
    setAcad d f (getAcad d f) = d := by
  cases f <;> rfl

theorem setAcad_setAcad (d : AcademicSection) (f : AcadField) (v w : String) :
    setAcad (setAcad d f v) f w = setAcad d f w := by
  cases f <;> rfl

theorem getSumm_setSumm_self (d : PerformanceSummarySection) (f : SummField) (v : String) :
    getSumm (setSumm d f v) f = v := by
  cases f <;> rfl

theorem getSumm_setSumm_ne (d : PerformanceSummarySection) (f g : SummField) (v : String) (h : f ≠ g) :
    getSumm (setSumm d f v) g = getSumm d g := by
  cases f <;> cases g <;> first | rfl | exact absurd rfl h

theorem setSumm_getSumm (d : PerformanceSummarySection) (f : SummField) :
    setSumm d f (getSumm d f) = d := by
  cases f <;> rfl

theorem setSumm_setSumm (d : PerformanceSummarySection) (f : SummField) (v w : String) :
    setSumm (setSumm d f v) f w = setSumm d f w := by
  cases f <;> rfl

theorem setTop_academicSections (d : PlaafpData) (f : TopField) (v : String) :
    (setTop d f v).academicSections = d.academicSections := by
  cases f <;> rfl

theorem setTop_performanceSummarySections (d : PlaafpData) (f : TopField) (v : String) :
    (setTop d f v).performanceSummarySections = d.performanceSummarySections := by
  cases f <;> rfl

theorem getTop_set_academicSections (d : PlaafpData) (l : List AcademicSection) (f : TopField) :
    getTop { d with academicSections := l } f = getTop d f := by
  cases f <;> rfl

theorem getTop_set_performanceSummarySections (d : PlaafpData) (l : List PerformanceSummarySection) (f : TopField) :
    getTop { d with performanceSummarySections := l } f = getTop d f := by
  cases f <;> rfl

theorem setAcad_id (s : AcademicSection) (f : AcadField) (v : String) (h : f ≠ .id) :
    (setAcad s f v).id = s.id := by
  cases f <;> first | rfl | exact absurd rfl h

theorem setSumm_id (s : PerformanceSummarySection) (f : SummField) (v : String) (h : f ≠ .id) :
    (setSumm s f v).id = s.id := by
  cases f <;> first | rfl | exact absurd rfl h

theorem setAcad_progressDataSources (s : AcademicSection) (f : AcadField) (v : String) :
    (setAcad s f v).progressDataSources = s.progressDataSources := by
  cases f <;> rfl

-- --- Reconciler machinery ---

theorem set_of_getElem? {α : Type} (l : List α) (i : Nat) (x : α)
    (h : l[i]? = some x) : l.set i x = l := by
  induction l generalizing i with
  | nil => simp at h
  | cons a t ih =>
    cases i with
    | zero =>
      simp at h
      rw [h]
      rfl
    | succ n =>
      simp at h
      show a :: t.set n x = a :: t
      rw [ih n (by simpa using h)]

-- --- Reconciler machinery ---

theorem step_eq_general (d : PlaafpData) (c : Bool) (e : LocatedField) :
    step (d, c) e =
      ((match targetOf e with
        | some t => writeTarget d t e.value
        | none => d), c || !(matchesRecord d e)) := by
  obtain ⟨f, ix, st, v⟩ := e
  unfold step matchesRecord lookupField getTarget writeTarget
  dsimp only
  by_cases hf : f = ""
  · simp [targetOf, hf]
  · simp only [if_neg hf]
    cases ix with
    | none =>
      dsimp only
      cases hofs : TopField.ofString f with
      | none => simp [targetOf, hf, hofs]
      | some tf =>
        by_cases hv : getTop d tf = v
        · subst hv
          simp [targetOf, hf, hofs, setTop_getTop]
        · simp [targetOf, hf, hofs, hv]
    | some ixs =>
      dsimp only
      cases hpi : intIdx (parseInt10 ixs) with
      | none => simp [targetOf, hf, hpi]
      | some i =>
        by_cases hac : st = some "academic"
        · simp only [hac, if_pos rfl]
          cases hofs : AcadField.ofString f with
          | none => cases hget : d.academicSections[i]? <;> simp [targetOf, hf, hpi, hac, hofs, hget]
          | some fa =>
            cases hget : d.academicSections[i]? with
            | none => simp [targetOf, hf, hpi, hac, hofs, hget]
            | some sec =>
              by_cases hv : getAcad sec fa = v
              · subst hv
                simp [targetOf, hf, hpi, hac, hofs, hget, setAcad_getAcad,
                  set_of_getElem? _ _ _ hget]
              · simp [targetOf, hf, hpi, hac, hofs, hget, hv]
        · simp only [if_neg hac]
          by_cases hsm : st = some "summary"
          · simp only [hsm, if_pos rfl]
            cases hofs : SummField.ofString f with
            | none => cases hget : d.performanceSummarySections[i]? <;> simp [targetOf, hf, hpi, hac, hsm, hofs, hget]
            | some fs =>
              cases hget : d.performanceSummarySections[i]? with
              | none => simp [targetOf, hf, hpi, hac, hsm, hofs, hget]
              | some sec =>
                by_cases hv : getSumm sec fs = v
                · subst hv
                  simp [targetOf, hf, hpi, hac, hsm, hofs, hget, setSumm_getSumm,
                    set_of_getElem? _ _ _ hget]
                · simp [targetOf, hf, hpi, hac, hsm, hofs, hget, hv]
          · simp [targetOf, hf, hpi, hac, hsm]

theorem apply1_eq_writeTarget (d : PlaafpData) (e : LocatedField) :
    apply1 d e = match targetOf e with
      | some t => writeTarget d t e.value
      | none => d := by
  unfold apply1
  rw [step_eq_general]

theorem step_fst (d : PlaafpData) (c : Bool) (e : LocatedField) :
    (step (d, c) e).1 = apply1 d e := by
  rw [step_eq_general, apply1_eq_writeTarget]

theorem step_snd (d : PlaafpData) (c : Bool) (e : LocatedField) :
    (step (d, c) e).2 = (c || !(matchesRecord d e)) := by
  rw [step_eq_general]

theorem writeTarget_getTarget (d : PlaafpData) (t : Target) (v : String)
    (h : getTarget d t = some v) : writeTarget d t v = d := by
  cases t with
  | top f =>
    unfold getTarget at h
    dsimp only at h
    injection h with h
    show setTop d f v = d
    rw [← h, setTop_getTop]
  | acad i f =>
    unfold getTarget at h
    dsimp only at h
    cases hget : d.academicSections[i]? with
    | none => rw [hget] at h; simp at h
    | some sec =>
      rw [hget] at h
      simp at h
      unfold writeTarget
      dsimp only
      simp only [hget]
      rw [← h, setAcad_getAcad, set_of_getElem? _ _ _ hget]
  | summ i f =>
    unfold getTarget at h
    dsimp only at h
    cases hget : d.performanceSummarySections[i]? with
    | none => rw [hget] at h; simp at h
    | some sec =>
      rw [hget] at h
      simp at h
      unfold writeTarget
      dsimp only
      simp only [hget]
      rw [← h, setSumm_getSumm, set_of_getElem? _ _ _ hget]

theorem writeTarget_none (d : PlaafpData) (t : Target) (v : String)
    (h : getTarget d t = none) : writeTarget d t v = d := by
  cases t with
  | top f => unfold getTarget at h; simp at h
  | acad i f =>
    unfold getTarget at h
    dsimp only at h
    cases hget : d.academicSections[i]? with
    | none => unfold writeTarget; dsimp only; simp [hget]
    | some sec => rw [hget] at h; simp at h
  | summ i f =>
    unfold getTarget at h
    dsimp only at h
    cases hget : d.performanceSummarySections[i]? with
    | none => unfold writeTarget; dsimp only; simp [hget]
    | some sec => rw [hget] at h; simp at h

theorem apply1_of_matches (d : PlaafpData) (e : LocatedField)
    (h : matchesRecord d e = true) : apply1 d e = d := by
  rw [apply1_eq_writeTarget]
  unfold matchesRecord lookupField at h
  cases ht : targetOf e with
  | none => simp
  | some t =>
    rw [ht] at h
    simp at h
    cases h with
    | inl hv => exact writeTarget_getTarget d t e.value hv
    | inr hn => exact writeTarget_none d t e.value hn

theorem foldl_step_fst (es : List LocatedField) (d : PlaafpData) (c : Bool) :
    (es.foldl step (d, c)).1 = applyAll d es := by
  induction es generalizing d c with
  | nil => rfl
  | cons e rest ih =>
    rw [List.foldl_cons]
    have hpair : step (d, c) e = (apply1 d e, (step (d, c) e).2) := by
      rw [← step_fst d c e]
    rw [hpair]
    exact ih (apply1 d e) _

theorem foldl_step_snd_true (es : List LocatedField) (d : PlaafpData) :
    (es.foldl step (d, true)).2 = true := by
  induction es generalizing d with
  | nil => rfl
  | cons e rest ih =>
    rw [List.foldl_cons]
    have h2 : (step (d, true) e).2 = true := by rw [step_snd]; simp
    have hpair : step (d, true) e = ((step (d, true) e).1, true) := by
      conv_lhs => rw [← Prod.mk.eta (p := step (d, true) e)]
      rw [h2]
    rw [hpair]
    exact ih _

theorem foldl_step_snd_false (es : List LocatedField) (d : PlaafpData)
    (h : (es.foldl step (d, false)).2 = false) : applyAll d es = d := by
  induction es generalizing d with
  | nil => rfl
  | cons e rest ih =>
    rw [List.foldl_cons] at h
    cases hs : (step (d, false) e).2 with
    | true =>
      exfalso
      have hpair : step (d, false) e = ((step (d, false) e).1, true) := by
        conv_lhs => rw [← Prod.mk.eta (p := step (d, false) e)]
        rw [hs]
      rw [hpair, foldl_step_snd_true] at h
      simp at h
    | false =>
      have hm : matchesRecord d e = true := by
        have hst := step_snd d false e
        rw [hs] at hst
        simp at hst
        exact hst
      have hd : apply1 d e = d := apply1_of_matches d e hm
      have h1 : (step (d, false) e).1 = d := by rw [step_fst]; exact hd
      have hpair : step (d, false) e = (d, false) := by
        conv_lhs => rw [← Prod.mk.eta (p := step (d, false) e)]
        rw [h1, hs]
      rw [hpair] at h
      show applyAll (apply1 d e) rest = d
      rw [hd]
      exact ih d h

/-- The record `handlePreviewEdit` returns is exactly the left-to-right
write-back of every located element (the `changed` flag only decides
whether the same value is returned through the copy or through the
previous reference). -/
theorem handlePreviewEdit_eq_applyAll (d : PlaafpData) (es : List LocatedField) :
    handlePreviewEdit d es = applyAll d es := by
  simp only [handlePreviewEdit]
  cases hsnd : (es.foldl step (d, false)).2 with
  | true =>
    rw [if_pos rfl]
    exact foldl_step_fst es d false
  | false =>
    rw [if_neg (by simp)]
    exact (foldl_step_snd_false es d hsnd).symm

theorem lt_of_getElem?_some {α : Type} (l : List α) (i : Nat) (x : α)
    (h : l[i]? = some x) : i < l.length := by
  by_contra hlt
  rw [List.getElem?_eq_none (by omega)] at h
  simp at h

theorem writeTarget_academicSections_length (d : PlaafpData) (t : Target) (v : String) :
    (writeTarget d t v).academicSections.length = d.academicSections.length := by
  cases t with
  | top f => rw [show writeTarget d (.top f) v = setTop d f v from rfl, setTop_academicSections]
  | acad i f =>
    unfold writeTarget
    dsimp only
    cases hget : d.academicSections[i]? with
    | none => rfl
    | some sec => simp
  | summ i f =>
    unfold writeTarget
    dsimp only
    cases hget : d.performanceSummarySections[i]? with
    | none => rfl
    | some sec => rfl

theorem writeTarget_performanceSummarySections_length (d : PlaafpData) (t : Target) (v : String) :
    (writeTarget d t v).performanceSummarySections.length = d.performanceSummarySections.length := by
  cases t with
  | top f => rw [show writeTarget d (.top f) v = setTop d f v from rfl, setTop_performanceSummarySections]
  | acad i f =>
    unfold writeTarget
    dsimp only
    cases hget : d.academicSections[i]? with
    | none => rfl
    | some sec => rfl
  | summ i f =>
    unfold writeTarget
    dsimp only
    cases hget : d.performanceSummarySections[i]? with
    | none => rfl
    | some sec => simp

theorem getTarget_writeTarget_ne (d : PlaafpData) (t t' : Target) (v : String)
    (h : t ≠ t') : getTarget (writeTarget d t v) t' = getTarget d t' := by
  cases t with
  | top f =>
    rw [show writeTarget d (.top f) v = setTop d f v from rfl]
    cases t' with
    | top g =>
      have hfg : f ≠ g := fun he => h (by rw [he])
      show some (getTop (setTop d f v) g) = some (getTop d g)
      rw [getTop_setTop_ne d f g v hfg]
    | acad j g =>
      show (Option.map _ (setTop d f v).academicSections[j]?) = _
      rw [setTop_academicSections]
      rfl
    | summ j g =>
      show (Option.map _ (setTop d f v).performanceSummarySections[j]?) = _
      rw [setTop_performanceSummarySections]
      rfl
  | acad i f =>
    unfold writeTarget
    dsimp only
    cases hget : d.academicSections[i]? with
    | none => rfl
    | some sec =>
      dsimp only
      cases t' with
      | top g =>
        show some (getTop _ g) = some (getTop d g)
        rw [getTop_set_academicSections]
      | acad j g =>
        show (Option.map _ (List.set d.academicSections i (setAcad sec f v))[j]?) = _
        by_cases hij : i = j
        · subst hij
          have hfg : f ≠ g := fun he => h (by rw [he])
          rw [List.getElem?_set_self (lt_of_getElem?_some _ _ _ hget)]
          unfold getTarget
          dsimp only
          rw [hget]
          simp [getAcad_setAcad_ne sec f g v hfg]
        · rw [List.getElem?_set_ne hij]
          rfl
      | summ j g => rfl
  | summ i f =>
    unfold writeTarget
    dsimp only
    cases hget : d.performanceSummarySections[i]? with
    | none => rfl
    | some sec =>
      dsimp only
      cases t' with
      | top g =>
        show some (getTop _ g) = some (getTop d g)
        rw [getTop_set_performanceSummarySections]
      | acad j g => rfl
      | summ j g =>
        show (Option.map _ (List.set d.performanceSummarySections i (setSumm sec f v))[j]?) = _
        by_cases hij : i = j
        · subst hij
          have hfg : f ≠ g := fun he => h (by rw [he])
          rw [List.getElem?_set_self (lt_of_getElem?_some _ _ _ hget)]
          unfold getTarget
          dsimp only
          rw [hget]
          simp [getSumm_setSumm_ne sec f g v hfg]
        · rw [List.getElem?_set_ne hij]
          rfl

theorem writeTarget_writeTarget (d : PlaafpData) (t : Target) (v w : String) :
    writeTarget (writeTarget d t v) t w = writeTarget d t w := by
  cases t with
  | top f =>
    rw [show writeTarget d (.top f) v = setTop d f v from rfl]
    rw [show writeTarget (setTop d f v) (.top f) w = setTop (setTop d f v) f w from rfl]
    rw [setTop_setTop]
    rfl
  | acad i f =>
    unfold writeTarget
    dsimp only
    cases hget : d.academicSections[i]? with
    | none => rw [hget]
    | some sec =>
      dsimp only
      rw [List.getElem?_set_self (lt_of_getElem?_some _ _ _ hget)]
      dsimp only
      rw [List.set_set, setAcad_setAcad]
  | summ i f =>
    unfold writeTarget
    dsimp only
    cases hget : d.performanceSummarySections[i]? with
    | none => rw [hget]
    | some sec =>
      dsimp only
      rw [List.getElem?_set_self (lt_of_getElem?_some _ _ _ hget)]
      dsimp only
      rw [List.set_set, setSumm_setSumm]

theorem apply1_academicSections_length (d : PlaafpData) (e : LocatedField) :
    (apply1 d e).academicSections.length = d.academicSections.length := by
  rw [apply1_eq_writeTarget]
  cases ht : targetOf e with
  | none => rfl
  | some t => exact writeTarget_academicSections_length d t e.value

theorem apply1_performanceSummarySections_length (d : PlaafpData) (e : LocatedField) :
    (apply1 d e).performanceSummarySections.length = d.performanceSummarySections.length := by
  rw [apply1_eq_writeTarget]
  cases ht : targetOf e with
  | none => rfl
  | some t => exact writeTarget_performanceSummarySections_length d t e.value

theorem applyAll_academicSections_length (d : PlaafpData) (es : List LocatedField) :
    (applyAll d es).academicSections.length = d.academicSections.length := by
  induction es generalizing d with
  | nil => rfl
  | cons e rest ih =>
    show (applyAll (apply1 d e) rest).academicSections.length = _
    rw [ih, apply1_academicSections_length]

theorem applyAll_performanceSummarySections_length (d : PlaafpData) (es : List LocatedField) :
    (applyAll d es).performanceSummarySections.length = d.performanceSummarySections.length := by
  induction es generalizing d with
  | nil => rfl
  | cons e rest ih =>
    show (applyAll (apply1 d e) rest).performanceSummarySections.length = _
    rw [ih, apply1_performanceSummarySections_length]

theorem apply1_invalid_index (R d : PlaafpData) (e : LocatedField)
    (hinv : invalidSubsectionIndex R e = true)
    (hl1 : d.academicSections.length = R.academicSections.length)
    (hl2 : d.performanceSummarySections.length = R.performanceSummarySections.length) :
    apply1 d e = d := by
  rw [apply1_eq_writeTarget]
  unfold invalidSubsectionIndex at hinv
  cases hix : e.index with
  | none => rw [hix] at hinv; simp at hinv
  | some ixs =>
    rw [hix] at hinv
    dsimp only at hinv
    by_cases hac : e.sectionType = some "academic"
    · rw [if_pos hac] at hinv
      unfold idxResolves at hinv
      cases hpi : intIdx (parseInt10 ixs) with
      | none =>
        cases ht : targetOf e with
        | none => rfl
        | some t =>
          exfalso
          unfold targetOf at ht
          rw [hix] at ht
          by_cases hf : e.field = ""
          · rw [if_pos hf] at ht; simp at ht
          · rw [if_neg hf] at ht
            dsimp only at ht
            rw [hpi] at ht
            simp at ht
      | some i =>
        rw [hpi] at hinv
        simp at hinv
        cases ht : targetOf e with
        | none => rfl
        | some t =>
          unfold targetOf at ht
          rw [hix] at ht
          by_cases hf : e.field = ""
          · rw [if_pos hf] at ht; simp at ht
          · rw [if_neg hf] at ht
            dsimp only at ht
            rw [hpi] at ht
            dsimp only at ht
            rw [if_pos hac] at ht
            cases hofs : AcadField.ofString e.field with
            | none => rw [hofs] at ht; simp at ht
            | some fa =>
              rw [hofs] at ht
              simp at ht
              rw [← ht]
              unfold writeTarget
              dsimp only
              rw [List.getElem?_eq_none (by omega)]
    · rw [if_neg hac] at hinv
      by_cases hsm : e.sectionType = some "summary"
      · rw [if_pos hsm] at hinv
        unfold idxResolves at hinv
        cases hpi : intIdx (parseInt10 ixs) with
        | none =>
          cases ht : targetOf e with
          | none => rfl
          | some t =>
            exfalso
            unfold targetOf at ht
            rw [hix] at ht
            by_cases hf : e.field = ""
            · rw [if_pos hf] at ht; simp at ht
            · rw [if_neg hf] at ht
              dsimp only at ht
              rw [hpi] at ht
              simp at ht
        | some i =>
          rw [hpi] at hinv
          simp at hinv
          cases ht : targetOf e with
          | none => rfl
          | some t =>
            unfold targetOf at ht
            rw [hix] at ht
            by_cases hf : e.field = ""
            · rw [if_pos hf] at ht; simp at ht
            · rw [if_neg hf] at ht
              dsimp only at ht
              rw [hpi] at ht
              dsimp only at ht
              rw [if_neg hac, if_pos hsm] at ht
              cases hofs : SummField.ofString e.field with
              | none => rw [hofs] at ht; simp at ht
              | some fs =>
                rw [hofs] at ht
                simp at ht
                rw [← ht]
                unfold writeTarget
                dsimp only
                rw [List.getElem?_eq_none (by omega)]
      · rw [if_neg hsm] at hinv
        simp at hinv

theorem applyAll_matches (R : PlaafpData) (es : List LocatedField)
    (hm : ∀ x ∈ es, matchesRecord R x = true) : applyAll R es = R := by
  induction es with
  | nil => rfl
  | cons e rest ih =>
    show applyAll (apply1 R e) rest = R
    rw [apply1_of_matches R e (hm e (by simp))]
    exact ih (fun x hx => hm x (by simp [hx]))

theorem apply1_preserves_family (R d : PlaafpData) (x : LocatedField) (t : Target) (v : String)
    (hd : d = writeTarget R t v) (hm : matchesRecord R x = true) :
    ∃ w, apply1 d x = writeTarget R t w := by
  rw [apply1_eq_writeTarget]
  cases ht' : targetOf x with
  | none => exact ⟨v, by dsimp only; rw [hd]⟩
  | some t' =>
    by_cases htt : t = t'
    · subst htt
      exact ⟨x.value, by dsimp only; rw [hd, writeTarget_writeTarget]⟩
    · have hgd : getTarget d t' = getTarget R t' := by
        rw [hd]; exact getTarget_writeTarget_ne R t t' v htt
      unfold matchesRecord lookupField at hm
      rw [ht'] at hm
      simp at hm
      cases hm with
      | inl hv =>
        refine ⟨v, ?_⟩
        show writeTarget d t' x.value = writeTarget R t v
        rw [writeTarget_getTarget d t' x.value (by rw [hgd]; exact hv), hd]
      | inr hn =>
        refine ⟨v, ?_⟩
        show writeTarget d t' x.value = writeTarget R t v
        rw [writeTarget_none d t' x.value (by rw [hgd]; exact hn), hd]

theorem applyAll_preserves_family (R : PlaafpData) (t : Target) (es : List LocatedField)
    (hm : ∀ x ∈ es, matchesRecord R x = true) :
    ∀ d v, d = writeTarget R t v → ∃ w, applyAll d es = writeTarget R t w := by
  induction es with
  | nil => exact fun d v hd => ⟨v, hd⟩
  | cons x rest ih =>
    intro d v hd
    obtain ⟨w1, h1⟩ := apply1_preserves_family R d x t v hd (hm x (by simp))
    exact ih (fun y hy => hm y (by simp [hy])) (apply1 d x) w1 h1

theorem handlePreviewEdit_single_edit (R : PlaafpData) (l1 l2 : List LocatedField)
    (e : LocatedField) (hm : ∀ x ∈ l1 ++ l2, matchesRecord R x = true) :
    handlePreviewEdit R (l1 ++ e :: l2) = R ∨
      ∃ t w, targetOf e = some t ∧
        handlePreviewEdit R (l1 ++ e :: l2) = writeTarget R t w := by
  rw [handlePreviewEdit_eq_applyAll]
  have hm1 : ∀ x ∈ l1, matchesRecord R x = true := fun x hx => hm x (by simp [hx])
  have hm2 : ∀ x ∈ l2, matchesRecord R x = true := fun x hx => hm x (by simp [hx])
  have hsplit : applyAll R (l1 ++ e :: l2) = applyAll (apply1 R e) l2 := by
    unfold applyAll
    rw [List.foldl_append, List.foldl_cons]
    have : List.foldl apply1 R l1 = R := applyAll_matches R l1 hm1
    rw [this]
  rw [hsplit]
  cases ht : targetOf e with
  | none =>
    left
    have he : apply1 R e = R := by
      rw [apply1_eq_writeTarget, ht]
    rw [he]
    exact applyAll_matches R l2 hm2
  | some t =>
    right
    have he : apply1 R e = writeTarget R t e.value := by
      rw [apply1_eq_writeTarget, ht]
    obtain ⟨w, hw⟩ := applyAll_preserves_family R t l2 hm2 (apply1 R e) e.value he
    exact ⟨t, w, rfl, hw⟩

theorem acadField_ofString_id (s : String)
    (h : AcadField.ofString s = some AcadField.id) : s = "id" := by
  unfold AcadField.ofString at h
  split at h <;> first | rfl | simp at h

theorem summField_ofString_id (s : String)
    (h : SummField.ofString s = some SummField.id) : s = "id" := by
  unfold SummField.ofString at h
  split at h <;> first | rfl | simp at h

theorem apply1_ids (d : PlaafpData) (e : LocatedField) (hid : e.field ≠ "id") :
    (apply1 d e).academicSections.map AcademicSection.id = d.academicSections.map AcademicSection.id ∧
    (apply1 d e).performanceSummarySections.map PerformanceSummarySection.id = d.performanceSummarySections.map PerformanceSummarySection.id := by
  rw [apply1_eq_writeTarget]
  cases ht : targetOf e with
  | none => exact ⟨rfl, rfl⟩
  | some t =>
    dsimp only
    cases t with
    | top f =>
      rw [show writeTarget d (.top f) e.value = setTop d f e.value from rfl,
        setTop_academicSections, setTop_performanceSummarySections]
      exact ⟨rfl, rfl⟩
    | acad i f =>
      have hf : f ≠ AcadField.id := by
        intro hfid
        subst hfid
        unfold targetOf at ht
        by_cases hfe : e.field = ""
        · rw [if_pos hfe] at ht; simp at ht
        · rw [if_neg hfe] at ht
          cases hix : e.index with
          | none =>
            rw [hix] at ht
            dsimp only at ht
            cases hofs : TopField.ofString e.field with
            | none => rw [hofs] at ht; simp at ht
            | some tf => rw [hofs] at ht; simp at ht
          | some ixs =>
            rw [hix] at ht
            dsimp only at ht
            cases hpi : intIdx (parseInt10 ixs) with
            | none => rw [hpi] at ht; simp at ht
            | some j =>
              rw [hpi] at ht
              dsimp only at ht
              by_cases hac : e.sectionType = some "academic"
              · rw [if_pos hac] at ht
                cases hofs : AcadField.ofString e.field with
                | none => rw [hofs] at ht; simp at ht
                | some fa =>
                  rw [hofs] at ht
                  simp at ht
                  exact hid (acadField_ofString_id e.field (by rw [hofs, ht.2]))
              · rw [if_neg hac] at ht
                by_cases hsm : e.sectionType = some "summary"
                · rw [if_pos hsm] at ht
                  cases hofs : SummField.ofString e.field with
                  | none => rw [hofs] at ht; simp at ht
                  | some fs => rw [hofs] at ht; simp at ht
                · rw [if_neg hsm] at ht; simp at ht
      unfold writeTarget
      dsimp only
      cases hget : d.academicSections[i]? with
      | none => exact ⟨rfl, rfl⟩
      | some sec =>
        dsimp only
        constructor
        · rw [List.map_set]
          rw [setAcad_id sec f e.value hf]
          apply set_of_getElem?
          rw [List.getElem?_map, hget]
          rfl
        · rfl
    | summ i f =>
      have hf : f ≠ SummField.id := by
        intro hfid
        subst hfid
        unfold targetOf at ht
        by_cases hfe : e.field = ""
        · rw [if_pos hfe] at ht; simp at ht
        · rw [if_neg hfe] at ht
          cases hix : e.index with
          | none =>
            rw [hix] at ht
            dsimp only at ht
            cases hofs : TopField.ofString e.field with
            | none => rw [hofs] at ht; simp at ht
            | some tf => rw [hofs] at ht; simp at ht
          | some ixs =>
            rw [hix] at ht
            dsimp only at ht
            cases hpi : intIdx (parseInt10 ixs) with
            | none => rw [hpi] at ht; simp at ht
            | some j =>
              rw [hpi] at ht
              dsimp only at ht
              by_cases hac : e.sectionType = some "academic"
              · rw [if_pos hac] at ht
                cases hofs : AcadField.ofString e.field with
                | none => rw [hofs] at ht; simp at ht
                | some fa => rw [hofs] at ht; simp at ht
              · rw [if_neg hac] at ht
                by_cases hsm : e.sectionType = some "summary"
                · rw [if_pos hsm] at ht
                  cases hofs : SummField.ofString e.field with
                  | none => rw [hofs] at ht; simp at ht
                  | some fs =>
                    rw [hofs] at ht
                    simp at ht
                    exact hid (summField_ofString_id e.field (by rw [hofs, ht.2]))
                · rw [if_neg hsm] at ht; simp at ht
      unfold writeTarget
      dsimp only
      cases hget : d.performanceSummarySections[i]? with
      | none => exact ⟨rfl, rfl⟩
      | some sec =>
        dsimp only
        constructor
        · rfl
        · rw [List.map_set]
          rw [setSumm_id sec f e.value hf]
          apply set_of_getElem?
          rw [List.getElem?_map, hget]
          rfl

theorem applyAll_ids (d : PlaafpData) (es : List LocatedField)
    (hid : ∀ e ∈ es, e.field ≠ "id") :
    (applyAll d es).academicSections.map AcademicSection.id = d.academicSections.map AcademicSection.id ∧
    (applyAll d es).performanceSummarySections.map PerformanceSummarySection.id = d.performanceSummarySections.map PerformanceSummarySection.id := by
  induction es generalizing d with
  | nil => exact ⟨rfl, rfl⟩
  | cons e rest ih =>
    have h1 := apply1_ids d e (hid e (by simp))
    have h2 := ih (apply1 d e) (fun x hx => hid x (by simp [hx]))
    exact ⟨h2.1.trans h1.1, h2.2.trans h1.2⟩

-- --- Write-back of the rendered spans (chunk computations) ---

theorem apply1_top_span (d : PlaafpData) (fs v : String) (f : TopField)
    (hofs : TopField.ofString fs = some f) :
    apply1 d ⟨fs, none, none, v⟩ = setTop d f v := by
  have hne : fs ≠ "" := by
    intro h
    rw [h] at hofs
    simp [TopField.ofString] at hofs
  rw [apply1_eq_writeTarget]
  unfold targetOf
  rw [if_neg hne]
  dsimp only
  rw [hofs]
  rfl

theorem apply1_acad_span (d : PlaafpData) (fs v : String) (f : AcadField) (i : Nat)
    (sec : AcademicSection) (hofs : AcadField.ofString fs = some f)
    (hget : d.academicSections[i]? = some sec) :
    apply1 d ⟨fs, some (natToString i), some "academic", v⟩ =
      { d with academicSections := d.academicSections.set i (setAcad sec f v) } := by
  have hne : fs ≠ "" := by
    intro h
    rw [h] at hofs
    simp [AcadField.ofString] at hofs
  rw [apply1_eq_writeTarget]
  unfold targetOf
  rw [if_neg hne]
  dsimp only
  rw [intIdx_parseInt10_natToString]
  dsimp only
  rw [if_pos rfl, hofs]
  simp only [Option.map_some']
  unfold writeTarget
  dsimp only
  rw [hget]

theorem apply1_summ_span (d : PlaafpData) (fs v : String) (f : SummField) (i : Nat)
    (sec : PerformanceSummarySection) (hofs : SummField.ofString fs = some f)
    (hget : d.performanceSummarySections[i]? = some sec) :
    apply1 d ⟨fs, some (natToString i), some "summary", v⟩ =
      { d with performanceSummarySections := d.performanceSummarySections.set i (setSumm sec f v) } := by
  have hne : fs ≠ "" := by
    intro h
    rw [h] at hofs
    simp [SummField.ofString] at hofs
  rw [apply1_eq_writeTarget]
  unfold targetOf
  rw [if_neg hne]
  dsimp only
  rw [intIdx_parseInt10_natToString]
  dsimp only
  rw [if_neg (by decide), if_pos rfl, hofs]
  simp only [Option.map_some']
  unfold writeTarget
  dsimp only
  rw [hget]

theorem applyAll_top_fields (ps : List (String × TopField × String))
    (hofs : ∀ p ∈ ps, TopField.ofString p.1 = some p.2.1) (d : PlaafpData) :
    applyAll d (ps.map fun p => (⟨p.1, none, none, p.2.2⟩ : LocatedField)) =
      ps.foldl (fun acc p => setTop acc p.2.1 p.2.2) d := by
  induction ps generalizing d with
  | nil => rfl
  | cons p rest ih =>
    rw [List.map_cons]
    show applyAll (apply1 d ⟨p.1, none, none, p.2.2⟩) (rest.map _) = _
    rw [apply1_top_span d p.1 p.2.2 p.2.1 (hofs p (by simp))]
    rw [List.foldl_cons]
    exact ih (fun q hq => hofs q (by simp [hq])) _

theorem applyAll_acad_fields (ps : List (String × AcadField × String))
    (hofs : ∀ p ∈ ps, AcadField.ofString p.1 = some p.2.1)
    (d : PlaafpData) (i : Nat) (sec : AcademicSection)
    (hget : d.academicSections[i]? = some sec) :
    applyAll d (ps.map fun p => (⟨p.1, some (natToString i), some "academic", p.2.2⟩ : LocatedField)) =
      { d with academicSections :=
          d.academicSections.set i (ps.foldl (fun acc p => setAcad acc p.2.1 p.2.2) sec) } := by
  induction ps generalizing d sec with
  | nil =>
    show d = _
    rw [List.foldl_nil, set_of_getElem? _ _ _ hget]
  | cons p rest ih =>
    rw [List.map_cons]
    show applyAll (apply1 d ⟨p.1, some (natToString i), some "academic", p.2.2⟩) (rest.map _) = _
    rw [apply1_acad_span d p.1 p.2.2 p.2.1 i sec (hofs p (by simp)) hget]
    have hget2 : ({ d with academicSections :=
        d.academicSections.set i (setAcad sec p.2.1 p.2.2) }).academicSections[i]? =
        some (setAcad sec p.2.1 p.2.2) := by
      show (d.academicSections.set i _)[i]? = _
      rw [List.getElem?_set_self (lt_of_getElem?_some _ _ _ hget)]
    rw [ih (fun q hq => hofs q (by simp [hq])) _ _ hget2]
    rw [List.foldl_cons]
    show ({ d with academicSections := (d.academicSections.set i _).set i _ } : PlaafpData) = _
    rw [List.set_set]

theorem applyAll_summ_fields (ps : List (String × SummField × String))
    (hofs : ∀ p ∈ ps, SummField.ofString p.1 = some p.2.1)
    (d : PlaafpData) (i : Nat) (sec : PerformanceSummarySection)
    (hget : d.performanceSummarySections[i]? = some sec) :
    applyAll d (ps.map fun p => (⟨p.1, some (natToString i), some "summary", p.2.2⟩ : LocatedField)) =
      { d with performanceSummarySections :=
          d.performanceSummarySections.set i (ps.foldl (fun acc p => setSumm acc p.2.1 p.2.2) sec) } := by
  induction ps generalizing d sec with
  | nil =>
    show d = _
    rw [List.foldl_nil, set_of_getElem? _ _ _ hget]
  | cons p rest ih =>
    rw [List.map_cons]
    show applyAll (apply1 d ⟨p.1, some (natToString i), some "summary", p.2.2⟩) (rest.map _) = _
    rw [apply1_summ_span d p.1 p.2.2 p.2.1 i sec (hofs p (by simp)) hget]
    have hget2 : ({ d with performanceSummarySections :=
        d.performanceSummarySections.set i (setSumm sec p.2.1 p.2.2) }).performanceSummarySections[i]? =
        some (setSumm sec p.2.1 p.2.2) := by
      show (d.performanceSummarySections.set i _)[i]? = _
      rw [List.getElem?_set_self (lt_of_getElem?_some _ _ _ hget)]
    rw [ih (fun q hq => hofs q (by simp [hq])) _ _ hget2]
    rw [List.foldl_cons]
    show ({ d with performanceSummarySections := (d.performanceSummarySections.set i _).set i _ } : PlaafpData) = _
    rw [List.set_set]

theorem extractFields_append (l1 l2 : List Piece) :
    extractFields (l1 ++ l2) = extractFields l1 ++ extractFields l2 := by
  unfold extractFields
  exact List.filterMap_append l1 l2 _

theorem applyAll_append (d : PlaafpData) (l1 l2 : List LocatedField) :
    applyAll d (l1 ++ l2) = applyAll (applyAll d l1) l2 := by
  unfold applyAll
  exact List.foldl_append _ _ l1 l2

theorem set_append_cons {α : Type} (pre : List α) (x y : α) (rest : List α) :
    (pre ++ x :: rest).set pre.length y = pre ++ y :: rest := by
  induction pre with
  | nil => rfl
  | cons a t ih =>
    show a :: (t ++ x :: rest).set t.length y = _
    rw [ih]
    rfl

theorem getElem?_append_cons {α : Type} (pre : List α) (x : α) (rest : List α) :
    (pre ++ x :: rest)[pre.length]? = some x := by
  induction pre with
  | nil => simp
  | cons a t ih =>
    simp only [List.cons_append, List.length_cons, List.getElem?_cons_succ]
    exact ih

/-- Write-back of the introductory spans. -/
theorem applyAll_introChunk (data : PlaafpData) (sn : String) (d : PlaafpData) :
    applyAll d (extractFields (introParts data sn)) =
      { d with
        studentName := sn,
        grade := (fill data.grade "grade"),
        disabilities := (fill data.disabilities "disability(ies)"),
        subjects := (fill data.subjects "subjects/courses"),
        cognitiveDeficits := (fill data.cognitiveDeficits "cognitive areas"),
        academicDeficits := (fill data.academicDeficits "academic areas"),
        disabilityImpact := (fill data.disabilityImpact "describe impact on access/progress"),
        specialEdSupport := (fill data.specialEdSupport "special education/resource support"),
        relatedServices := (fill data.relatedServices "related services"),
        accommodations := (fill data.accommodations "list of accommodations") } := by
  rw [show extractFields (introParts data sn) =
      ([("studentName", TopField.studentName, sn),
       ("grade", TopField.grade, (fill data.grade "grade")),
       ("disabilities", TopField.disabilities, (fill data.disabilities "disability(ies)")),
       ("subjects", TopField.subjects, (fill data.subjects "subjects/courses")),
       ("cognitiveDeficits", TopField.cognitiveDeficits, (fill data.cognitiveDeficits "cognitive areas")),
       ("academicDeficits", TopField.academicDeficits, (fill data.academicDeficits "academic areas")),
       ("disabilityImpact", TopField.disabilityImpact, (fill data.disabilityImpact "describe impact on access/progress")),
       ("specialEdSupport", TopField.specialEdSupport, (fill data.specialEdSupport "special education/resource support")),
       ("relatedServices", TopField.relatedServices, (fill data.relatedServices "related services")),
       ("accommodations", TopField.accommodations, (fill data.accommodations "list of accommodations"))]).map (fun p => (⟨p.1, none, none, p.2.2⟩ : LocatedField)) from rfl]
  rw [applyAll_top_fields
      [("studentName", TopField.studentName, sn),
       ("grade", TopField.grade, (fill data.grade "grade")),
       ("disabilities", TopField.disabilities, (fill data.disabilities "disability(ies)")),
       ("subjects", TopField.subjects, (fill data.subjects "subjects/courses")),
       ("cognitiveDeficits", TopField.cognitiveDeficits, (fill data.cognitiveDeficits "cognitive areas")),
       ("academicDeficits", TopField.academicDeficits, (fill data.academicDeficits "academic areas")),
       ("disabilityImpact", TopField.disabilityImpact, (fill data.disabilityImpact "describe impact on access/progress")),
       ("specialEdSupport", TopField.specialEdSupport, (fill data.specialEdSupport "special education/resource support")),
       ("relatedServices", TopField.relatedServices, (fill data.relatedServices "related services")),
       ("accommodations", TopField.accommodations, (fill data.accommodations "list of accommodations"))]
      (by intro p hp; fin_cases hp <;> rfl) d]
  simp only [List.foldl_cons, List.foldl_nil, setTop]

/-- Write-back of the functional spans. -/
theorem applyAll_functionalChunk (data : PlaafpData) (sn : String) (d : PlaafpData) :
    applyAll d (extractFields (functionalParts data sn)) =
      { d with
        functionalDataSource := (fill data.functionalDataSource "teacher information, observation, etc."),
        functionalStrengths := (fill data.functionalStrengths "functional strengths"),
        functionalDeficits := (fill data.functionalDeficits "functional deficits and data"),
        functionalImpact := (fill data.functionalImpact "describe impact") } := by
  rw [show extractFields (functionalParts data sn) =
      ([("functionalDataSource", TopField.functionalDataSource, (fill data.functionalDataSource "teacher information, observation, etc.")),
       ("functionalStrengths", TopField.functionalStrengths, (fill data.functionalStrengths "functional strengths")),
       ("functionalDeficits", TopField.functionalDeficits, (fill data.functionalDeficits "functional deficits and data")),
       ("functionalImpact", TopField.functionalImpact, (fill data.functionalImpact "describe impact"))]).map (fun p => (⟨p.1, none, none, p.2.2⟩ : LocatedField)) from rfl]
  rw [applyAll_top_fields
      [("functionalDataSource", TopField.functionalDataSource, (fill data.functionalDataSource "teacher information, observation, etc.")),
       ("functionalStrengths", TopField.functionalStrengths, (fill data.functionalStrengths "functional strengths")),
       ("functionalDeficits", TopField.functionalDeficits, (fill data.functionalDeficits "functional deficits and data")),
       ("functionalImpact", TopField.functionalImpact, (fill data.functionalImpact "describe impact"))]
      (by intro p hp; fin_cases hp <;> rfl) d]
  simp only [List.foldl_cons, List.foldl_nil, setTop]

/-- Write-back of the transition spans (the thrice-rendered parent-name span writes the same value each time). -/
theorem applyAll_transitionChunk (data : PlaafpData) (sn pn : String) (d : PlaafpData) :
    applyAll d (extractFields (transitionParts data sn pn)) =
      { d with
        transitionStrengths := (fill data.transitionStrengths "strengths - Life Skills, Community experiences, etc."),
        transitionSupportNeeds := (fill data.transitionSupportNeeds "support areas"),
        transitionEmploymentGoal := (fill data.transitionEmploymentGoal "area of employment"),
        parentName := pn,
        parentEmploymentPlan := (fill data.parentEmploymentPlan "full or part"),
        parentEmploymentGoal := (fill data.parentEmploymentGoal "employment area"),
        parentLivingPlan := (fill data.parentLivingPlan "with a friend / independently / at home") } := by
  rw [show extractFields (transitionParts data sn pn) =
      ([("transitionStrengths", TopField.transitionStrengths, (fill data.transitionStrengths "strengths - Life Skills, Community experiences, etc.")),
       ("transitionSupportNeeds", TopField.transitionSupportNeeds, (fill data.transitionSupportNeeds "support areas")),
       ("transitionEmploymentGoal", TopField.transitionEmploymentGoal, (fill data.transitionEmploymentGoal "area of employment")),
       ("parentName", TopField.parentName, pn),
       ("parentEmploymentPlan", TopField.parentEmploymentPlan, (fill data.parentEmploymentPlan "full or part")),
       ("parentName", TopField.parentName, pn),
       ("parentEmploymentGoal", TopField.parentEmploymentGoal, (fill data.parentEmploymentGoal "employment area")),
       ("parentName", TopField.parentName, pn),
       ("parentLivingPlan", TopField.parentLivingPlan, (fill data.parentLivingPlan "with a friend / independently / at home"))]).map (fun p => (⟨p.1, none, none, p.2.2⟩ : LocatedField)) from rfl]
  rw [applyAll_top_fields
      [("transitionStrengths", TopField.transitionStrengths, (fill data.transitionStrengths "strengths - Life Skills, Community experiences, etc.")),
       ("transitionSupportNeeds", TopField.transitionSupportNeeds, (fill data.transitionSupportNeeds "support areas")),
       ("transitionEmploymentGoal", TopField.transitionEmploymentGoal, (fill data.transitionEmploymentGoal "area of employment")),
       ("parentName", TopField.parentName, pn),
       ("parentEmploymentPlan", TopField.parentEmploymentPlan, (fill data.parentEmploymentPlan "full or part")),
       ("parentName", TopField.parentName, pn),
       ("parentEmploymentGoal", TopField.parentEmploymentGoal, (fill data.parentEmploymentGoal "employment area")),
       ("parentName", TopField.parentName, pn),
       ("parentLivingPlan", TopField.parentLivingPlan, (fill data.parentLivingPlan "with a friend / independently / at home"))]
      (by intro p hp; fin_cases hp <;> rfl) d]
  simp only [List.foldl_cons, List.foldl_nil, setTop]

/-- Write-back of the ten spans of one academic block group. -/
theorem applyAll_acadSectionChunk (data : PlaafpData) (sn : String) (d : PlaafpData)
    (i : Nat) (s sec : AcademicSection) (hget : d.academicSections[i]? = some sec) :
    applyAll d (extractFields (acadSectionParts data sn i s)) =
      { d with academicSections :=
                 d.academicSections.set i
                   { sec with
                     subject := (fill s.subject "subject/course"),
                     staarProficient := (fill s.staarProficient "TEKS Student Expectations"),
                     staarDeficits := (fill s.staarDeficits "Student Essential Outcome or TEKS"),
                     readingFluency := (fill s.readingFluency "score/percentile"),
                     readingComprehension := (fill s.readingComprehension "score/percentile"),
                     mathProblemSolving := (fill s.mathProblemSolving "score/percentile"),
                     classroomStrengths := (fill s.classroomStrengths "strengths"),
                     classroomDeficits := (fill s.classroomDeficits "needs\u201A\u00C4\u00EEaligned with STAAR weak areas"),
                     deficitsEvidence := (fill s.deficitsEvidence "work samples, CBM, rubrics"),
                     criticalNeeds := (fill s.criticalNeeds "area") } } := by
  rw [show extractFields (acadSectionParts data sn i s) =
      ([("subject", AcadField.subject, (fill s.subject "subject/course")),
       ("staarProficient", AcadField.staarProficient, (fill s.staarProficient "TEKS Student Expectations")),
       ("staarDeficits", AcadField.staarDeficits, (fill s.staarDeficits "Student Essential Outcome or TEKS")),
       ("readingFluency", AcadField.readingFluency, (fill s.readingFluency "score/percentile")),
       ("readingComprehension", AcadField.readingComprehension, (fill s.readingComprehension "score/percentile")),
       ("mathProblemSolving", AcadField.mathProblemSolving, (fill s.mathProblemSolving "score/percentile")),
       ("classroomStrengths", AcadField.classroomStrengths, (fill s.classroomStrengths "strengths")),
       ("classroomDeficits", AcadField.classroomDeficits, (fill s.classroomDeficits "needs\u201A\u00C4\u00EEaligned with STAAR weak areas")),
       ("deficitsEvidence", AcadField.deficitsEvidence, (fill s.deficitsEvidence "work samples, CBM, rubrics")),
       ("criticalNeeds", AcadField.criticalNeeds, (fill s.criticalNeeds "area"))]).map (fun p => (⟨p.1, some (natToString i), some "academic", p.2.2⟩ : LocatedField)) from rfl]
  rw [applyAll_acad_fields
      [("subject", AcadField.subject, (fill s.subject "subject/course")),
       ("staarProficient", AcadField.staarProficient, (fill s.staarProficient "TEKS Student Expectations")),
       ("staarDeficits", AcadField.staarDeficits, (fill s.staarDeficits "Student Essential Outcome or TEKS")),
       ("readingFluency", AcadField.readingFluency, (fill s.readingFluency "score/percentile")),
       ("readingComprehension", AcadField.readingComprehension, (fill s.readingComprehension "score/percentile")),
       ("mathProblemSolving", AcadField.mathProblemSolving, (fill s.mathProblemSolving "score/percentile")),
       ("classroomStrengths", AcadField.classroomStrengths, (fill s.classroomStrengths "strengths")),
       ("classroomDeficits", AcadField.classroomDeficits, (fill s.classroomDeficits "needs\u201A\u00C4\u00EEaligned with STAAR weak areas")),
       ("deficitsEvidence", AcadField.deficitsEvidence, (fill s.deficitsEvidence "work samples, CBM, rubrics")),
       ("criticalNeeds", AcadField.criticalNeeds, (fill s.criticalNeeds "area"))]
      (by intro p hp; fin_cases hp <;> rfl) d i sec hget]
  simp only [List.foldl_cons, List.foldl_nil, setAcad, setSumm]

/-- Write-back of the twelve spans of one performance-summary block (the
subject span occurs three times; the last write wins). -/
theorem applyAll_summSectionChunk (data : PlaafpData) (sn : String) (d : PlaafpData)
    (i : Nat) (s sec : PerformanceSummarySection) (hget : d.performanceSummarySections[i]? = some sec) :
    applyAll d (extractFields (summSectionParts data sn i s)) =
      { d with performanceSummarySections :=
                 d.performanceSummarySections.set i
                   { sec with
                     passedStateAssessment := (fill s.passedStateAssessment "passed/did not pass"),
                     taksScore := (fill s.taksScore "TAKS score"),
                     rawScore := (fill s.rawScore "raw score"),
                     percentCorrect := (fill s.percentCorrect "% correct"),
                     gradeInSubject := (fill s.gradeInSubject "grade in subject"),
                     accommodations := (fill s.accommodations "accommodations/assist tech"),
                     needs := (fill s.needs "needs"),
                     receivesSpecialEdSupport := (fill s.receivesSpecialEdSupport "receives/does not receive"),
                     subject := (fill s.subject "subject"),
                     strengths := (fill s.strengths "PLAAFP strengths for subject") } } := by
  rw [show extractFields (summSectionParts data sn i s) =
      ([("passedStateAssessment", SummField.passedStateAssessment, (fill s.passedStateAssessment "passed/did not pass")),
       ("subject", SummField.subject, (fill s.subject "subject")),
       ("taksScore", SummField.taksScore, (fill s.taksScore "TAKS score")),
       ("rawScore", SummField.rawScore, (fill s.rawScore "raw score")),
       ("percentCorrect", SummField.percentCorrect, (fill s.percentCorrect "% correct")),
       ("gradeInSubject", SummField.gradeInSubject, (fill s.gradeInSubject "grade in subject")),
       ("accommodations", SummField.accommodations, (fill s.accommodations "accommodations/assist tech")),
       ("needs", SummField.needs, (fill s.needs "needs")),
       ("receivesSpecialEdSupport", SummField.receivesSpecialEdSupport, (fill s.receivesSpecialEdSupport "receives/does not receive")),
       ("subject", SummField.subject, s.subject),
       ("subject", SummField.subject, (fill s.subject "subject")),
       ("strengths", SummField.strengths, (fill s.strengths "PLAAFP strengths for subject"))]).map (fun p => (⟨p.1, some (natToString i), some "summary", p.2.2⟩ : LocatedField)) from rfl]
  rw [applyAll_summ_fields
      [("passedStateAssessment", SummField.passedStateAssessment, (fill s.passedStateAssessment "passed/did not pass")),
       ("subject", SummField.subject, (fill s.subject "subject")),
       ("taksScore", SummField.taksScore, (fill s.taksScore "TAKS score")),
       ("rawScore", SummField.rawScore, (fill s.rawScore "raw score")),
       ("percentCorrect", SummField.percentCorrect, (fill s.percentCorrect "% correct")),
       ("gradeInSubject", SummField.gradeInSubject, (fill s.gradeInSubject "grade in subject")),
       ("accommodations", SummField.accommodations, (fill s.accommodations "accommodations/assist tech")),
       ("needs", SummField.needs, (fill s.needs "needs")),
       ("receivesSpecialEdSupport", SummField.receivesSpecialEdSupport, (fill s.receivesSpecialEdSupport "receives/does not receive")),
       ("subject", SummField.subject, s.subject),
       ("subject", SummField.subject, (fill s.subject "subject")),
       ("strengths", SummField.strengths, (fill s.strengths "PLAAFP strengths for subject"))]
      (by intro p hp; fin_cases hp <;> rfl) d i sec hget]
  simp only [List.foldl_cons, List.foldl_nil, setAcad, setSumm]

/-- Write-back of all academic block groups, by induction along the list. -/
theorem applyAll_acadAllChunk (data : PlaafpData) (sn : String) :
    ∀ (ss : List AcademicSection) (d : PlaafpData) (pre : List AcademicSection),
      d.academicSections = pre ++ ss →
      applyAll d (extractFields (acadAllParts data sn pre.length ss)) =
        { d with academicSections := pre ++ ss.map normAcadSection } := by
  intro ss
  induction ss with
  | nil =>
    intro d pre h
    rw [List.append_nil] at h
    show d = _
    rw [List.map_nil, List.append_nil, ← h]
  | cons s rest ih =>
    intro d pre h
    rw [show acadAllParts data sn pre.length (s :: rest) =
        acadSectionParts data sn pre.length s ++ acadAllParts data sn (pre.length + 1) rest from rfl]
    rw [extractFields_append, applyAll_append]
    have hget : d.academicSections[pre.length]? = some s := by
      rw [h]; exact getElem?_append_cons pre s rest
    rw [applyAll_acadSectionChunk data sn d pre.length s s hget]
    rw [show ({ s with
          subject := (fill s.subject "subject/course"),
          staarProficient := (fill s.staarProficient "TEKS Student Expectations"),
          staarDeficits := (fill s.staarDeficits "Student Essential Outcome or TEKS"),
          readingFluency := (fill s.readingFluency "score/percentile"),
          readingComprehension := (fill s.readingComprehension "score/percentile"),
          mathProblemSolving := (fill s.mathProblemSolving "score/percentile"),
          classroomStrengths := (fill s.classroomStrengths "strengths"),
          classroomDeficits := (fill s.classroomDeficits "needs‚Äîaligned with STAAR weak areas"),
          deficitsEvidence := (fill s.deficitsEvidence "work samples, CBM, rubrics"),
          criticalNeeds := (fill s.criticalNeeds "area") } : AcademicSection) = normAcadSection s from rfl]
    have hsects : ({ d with academicSections := d.academicSections.set pre.length (normAcadSection s) } : PlaafpData).academicSections = (pre ++ [normAcadSection s]) ++ rest := by
      show d.academicSections.set pre.length (normAcadSection s) = _
      rw [h, set_append_cons]
      simp
    have hlen : (pre ++ [normAcadSection s]).length = pre.length + 1 := by
      simp
    have hstep := ih ({ d with academicSections := d.academicSections.set pre.length (normAcadSection s) }) (pre ++ [normAcadSection s]) hsects
    rw [hlen] at hstep
    rw [hstep]
    show ({ d with academicSections := (pre ++ [normAcadSection s]) ++ rest.map normAcadSection } : PlaafpData) = _
    rw [show (pre ++ [normAcadSection s]) ++ rest.map normAcadSection
        = pre ++ (normAcadSection s :: rest.map normAcadSection) from by simp]
    rfl

/-- Write-back of all performance-summary blocks. -/
theorem applyAll_summAllChunk (data : PlaafpData) (sn : String) :
    ∀ (ss : List PerformanceSummarySection) (d : PlaafpData) (pre : List PerformanceSummarySection),
      d.performanceSummarySections = pre ++ ss →
      applyAll d (extractFields (summAllParts data sn pre.length ss)) =
        { d with performanceSummarySections := pre ++ ss.map normSummSection } := by
  intro ss
  induction ss with
  | nil =>
    intro d pre h
    rw [List.append_nil] at h
    show d = _
    rw [List.map_nil, List.append_nil, ← h]
  | cons s rest ih =>
    intro d pre h
    rw [show summAllParts data sn pre.length (s :: rest) =
        summSectionParts data sn pre.length s ++ summAllParts data sn (pre.length + 1) rest from rfl]
    rw [extractFields_append, applyAll_append]
    have hget : d.performanceSummarySections[pre.length]? = some s := by
      rw [h]; exact getElem?_append_cons pre s rest
    rw [applyAll_summSectionChunk data sn d pre.length s s hget]
    rw [show ({ s with
          passedStateAssessment := (fill s.passedStateAssessment "passed/did not pass"),
          subject := (fill s.subject "subject"),
          taksScore := (fill s.taksScore "TAKS score"),
          rawScore := (fill s.rawScore "raw score"),
          percentCorrect := (fill s.percentCorrect "% correct"),
          gradeInSubject := (fill s.gradeInSubject "grade in subject"),
          accommodations := (fill s.accommodations "accommodations/assist tech"),
          needs := (fill s.needs "needs"),
          receivesSpecialEdSupport := (fill s.receivesSpecialEdSupport "receives/does not receive"),
          strengths := (fill s.strengths "PLAAFP strengths for subject") } : PerformanceSummarySection)
        = normSummSection s from rfl]
    have hsects : ({ d with performanceSummarySections := d.performanceSummarySections.set pre.length (normSummSection s) } : PlaafpData).performanceSummarySections = (pre ++ [normSummSection s]) ++ rest := by
      show d.performanceSummarySections.set pre.length (normSummSection s) = _
      rw [h, set_append_cons]
      simp
    have hlen : (pre ++ [normSummSection s]).length = pre.length + 1 := by
      simp
    have hstep := ih ({ d with performanceSummarySections := d.performanceSummarySections.set pre.length (normSummSection s) }) (pre ++ [normSummSection s]) hsects
    rw [hlen] at hstep
    rw [hstep]
    show ({ d with performanceSummarySections := (pre ++ [normSummSection s]) ++ rest.map normSummSection } : PlaafpData) = _
    rw [show (pre ++ [normSummSection s]) ++ rest.map normSummSection
        = pre ++ (normSummSection s :: rest.map normSummSection) from by simp]
    rfl

theorem applyAll_acadAllChunk0 (data : PlaafpData) (sn : String) (ss : List AcademicSection)
    (d : PlaafpData) (h : d.academicSections = ss) :
    applyAll d (extractFields (acadAllParts data sn 0 ss)) =
      { d with academicSections := ss.map normAcadSection } := by
  have hh : d.academicSections = [] ++ ss := by simpa using h
  have := applyAll_acadAllChunk data sn ss d [] hh
  simpa using this

theorem applyAll_summAllChunk0 (data : PlaafpData) (sn : String) (ss : List PerformanceSummarySection)
    (d : PlaafpData) (h : d.performanceSummarySections = ss) :
    applyAll d (extractFields (summAllParts data sn 0 ss)) =
      { d with performanceSummarySections := ss.map normSummSection } := by
  have hh : d.performanceSummarySections = [] ++ ss := by simpa using h
  have := applyAll_summAllChunk data sn ss d [] hh
  simpa using this

/-- Feeding the unedited rendering of `data` back through the reconciler
produces exactly the placeholder-normalised record `normalizeRecord data`. -/
theorem handlePreviewEdit_render (data : PlaafpData) :
    handlePreviewEdit data (extractFields (generatePreviewParts data)) = normalizeRecord data := by
  rw [handlePreviewEdit_eq_applyAll]
  simp only [generatePreviewParts, normalizeRecord]
  cases hps : data.performanceSummarySections with
  | nil =>
    rw [if_neg (by simp)]
    rw [extractFields_append, extractFields_append, extractFields_append, extractFields_append,
        applyAll_append, applyAll_append, applyAll_append, applyAll_append]
    rw [applyAll_introChunk data (jsOr data.studentName "______ (student name)")]
    rw [applyAll_acadAllChunk0 data (jsOr data.studentName "______ (student name)")
        data.academicSections _ (by rfl)]
    rw [applyAll_functionalChunk data (jsOr data.studentName "______ (student name)")]
    rw [applyAll_transitionChunk data (jsOr data.studentName "______ (student name)")
        (jsOr data.parentName "______ (parent name)")]
    rw [hps]
    rfl
  | cons c cs =>
    rw [if_pos (by simp)]
    rw [extractFields_append, extractFields_append, extractFields_append, extractFields_append,
        applyAll_append, applyAll_append, applyAll_append, applyAll_append]
    rw [show extractFields (Piece.raw "<strong>Summary of Performance</strong>" ::
        summAllParts data (jsOr data.studentName "______ (student name)") 0 (c :: cs)) =
        extractFields (summAllParts data (jsOr data.studentName "______ (student name)") 0 (c :: cs)) from rfl]
    rw [applyAll_introChunk data (jsOr data.studentName "______ (student name)")]
    rw [applyAll_acadAllChunk0 data (jsOr data.studentName "______ (student name)")
        data.academicSections _ (by rfl)]
    rw [applyAll_functionalChunk data (jsOr data.studentName "______ (student name)")]
    rw [applyAll_transitionChunk data (jsOr data.studentName "______ (student name)")
        (jsOr data.parentName "______ (parent name)")]
    rw [applyAll_summAllChunk0 data (jsOr data.studentName "______ (student name)")
        (c :: cs) _ (by exact hps)]

-- --- Rendering the normalised record (congruence lemmas) ---

theorem fillPronoun_he (x : String) : fillPronoun x "he/she" = "he/she" := by
  unfold fillPronoun
  split <;> rfl

theorem introParts_norm (data : PlaafpData) (h1 : data.studentName ≠ "") (sn : String) :
    introParts (normalizeRecord data) sn = introParts data sn := by
  unfold introParts
  simp only [normalizeRecord]
  simp only [fill_fill, fillPronoun_he,
    jsOr_of_ne data.studentName "______ (student name)" h1]

theorem functionalParts_norm (data : PlaafpData) (h1 : data.studentName ≠ "") (sn : String) :
    functionalParts (normalizeRecord data) sn = functionalParts data sn := by
  unfold functionalParts
  simp only [normalizeRecord]
  simp only [fill_fill, jsOr_of_ne data.studentName "______ (student name)" h1]

theorem transitionParts_norm (data : PlaafpData) (sn pn : String) :
    transitionParts (normalizeRecord data) sn pn = transitionParts data sn pn := by
  unfold transitionParts
  simp only [normalizeRecord]
  simp only [fill_fill]

theorem acadSectionParts_norm (data : PlaafpData) (sn : String) (i : Nat)
    (s : AcademicSection) (hs : jsTrim s.subject = s.subject) (hs2 : s.subject ≠ "") :
    acadSectionParts (normalizeRecord data) sn i (normAcadSection s) =
      acadSectionParts data sn i s := by
  unfold acadSectionParts
  simp only [normalizeRecord, normAcadSection]
  simp only [fill_fill, fillPronoun_he, fill_self s.subject "subject/course" hs hs2]

theorem summSectionParts_norm (data : PlaafpData) (h1 : data.studentName ≠ "") (sn : String)
    (i : Nat) (s : PerformanceSummarySection)
    (hs : jsTrim s.subject = s.subject) (hs2 : s.subject ≠ "") :
    summSectionParts (normalizeRecord data) sn i (normSummSection s) =
      summSectionParts data sn i s := by
  unfold summSectionParts
  simp only [normalizeRecord, normSummSection]
  simp only [fill_fill, fill_self s.subject "subject" hs hs2,
    jsOr_of_ne data.studentName "______ (student name)" h1]

theorem acadAllParts_norm (data : PlaafpData) (sn : String) :
    ∀ (j : Nat) (ss : List AcademicSection),
      (∀ s ∈ ss, jsTrim s.subject = s.subject ∧ s.subject ≠ "") →
      acadAllParts (normalizeRecord data) sn j (ss.map normAcadSection) =
        acadAllParts data sn j ss := by
  intro j ss
  induction ss generalizing j with
  | nil => intro _; rfl
  | cons s rest ih =>
    intro h
    rw [List.map_cons]
    show acadSectionParts (normalizeRecord data) sn j (normAcadSection s) ++
        acadAllParts (normalizeRecord data) sn (j + 1) (rest.map normAcadSection) = _
    rw [acadSectionParts_norm data sn j s (h s (by simp)).1 (h s (by simp)).2]
    rw [ih (j + 1) (fun x hx => h x (by simp [hx]))]
    rfl

theorem summAllParts_norm (data : PlaafpData) (h1 : data.studentName ≠ "") (sn : String) :
    ∀ (j : Nat) (ss : List PerformanceSummarySection),
      (∀ s ∈ ss, jsTrim s.subject = s.subject ∧ s.subject ≠ "") →
      summAllParts (normalizeRecord data) sn j (ss.map normSummSection) =
        summAllParts data sn j ss := by
  intro j ss
  induction ss generalizing j with
  | nil => intro _; rfl
  | cons s rest ih =>
    intro h
    rw [List.map_cons]
    show summSectionParts (normalizeRecord data) sn j (normSummSection s) ++
        summAllParts (normalizeRecord data) sn (j + 1) (rest.map normSummSection) = _
    rw [summSectionParts_norm data h1 sn j s (h s (by simp)).1 (h s (by simp)).2]
    rw [ih (j + 1) (fun x hx => h x (by simp [hx]))]
    rfl

/-- Rendering the placeholder-normalised record produces the same document
as rendering the original, provided the student name is nonempty and every
subsection subject is trimmed and nonempty (the fields whose raw values
appear outside their own editable spans). -/
theorem generatePreviewParts_norm (data : PlaafpData) (h1 : data.studentName ≠ "")
    (h2 : ∀ s ∈ data.academicSections, jsTrim s.subject = s.subject ∧ s.subject ≠ "")
    (h3 : ∀ s ∈ data.performanceSummarySections, jsTrim s.subject = s.subject ∧ s.subject ≠ "") :
    generatePreviewParts (normalizeRecord data) = generatePreviewParts data := by
  unfold generatePreviewParts
  dsimp only
  rw [show (normalizeRecord data).studentName = jsOr data.studentName "______ (student name)" from rfl]
  rw [show (normalizeRecord data).parentName = jsOr data.parentName "______ (parent name)" from rfl]
  rw [jsOr_idem data.studentName "______ (student name)" (by decide)]
  rw [jsOr_idem data.parentName "______ (parent name)" (by decide)]
  rw [show (normalizeRecord data).academicSections = data.academicSections.map normAcadSection from rfl]
  rw [show (normalizeRecord data).performanceSummarySections = data.performanceSummarySections.map normSummSection from rfl]
  rw [introParts_norm data h1]
  rw [acadAllParts_norm data _ 0 data.academicSections h2]
  rw [functionalParts_norm data h1]
  rw [transitionParts_norm data]
  rw [List.length_map]
  by_cases hlen : data.performanceSummarySections.length > 0
  · rw [if_pos hlen, if_pos hlen]
    rw [summAllParts_norm data h1 _ 0 data.performanceSummarySections h3]
  · rw [if_neg hlen, if_neg hlen]

-- --- BRIDGE: the untyped reconciler agrees with the typed restriction on
-- valid locators, and skips a non-resolving subsection index ---

/-- On a locator that names a declared string field (every locator the
renderer emits), the untyped loop body takes exactly the typed branch:
no clobber, no stray key, no TypeError. -/
theorem stepJs_valid (d : PlaafpData) (c : Bool) (e : LocatedField)
    (hv : validLocator e = true) :
    stepJs (fromData d, c) e = Except.ok (fromData (step (d, c) e).1, (step (d, c) e).2) := by
  obtain ⟨f, ix, st, v⟩ := e
  unfold validLocator at hv
  dsimp only at hv
  unfold stepJs step
  dsimp only [fromData]
  by_cases hf : f = ""
  · rw [if_pos hf, if_pos hf]
  · rw [if_neg hf] at hv
    rw [if_neg hf, if_neg hf]
    cases ix with
    | none =>
      dsimp only at hv ⊢
      cases hof : TopField.ofString f with
      | none => rw [hof] at hv; simp at hv
      | some tf =>
        dsimp only
        by_cases hne : getTop d tf ≠ v
        · rw [if_pos hne, if_pos hne]
        · rw [if_neg hne, if_neg hne]
    | some idxStr =>
      dsimp only at hv ⊢
      cases hpi : intIdx (parseInt10 idxStr) with
      | none =>
        dsimp only
        by_cases hac : st = some "academic"
        · rw [if_pos hac]
        · rw [if_neg hac]
          by_cases hsm : st = some "summary"
          · rw [if_pos hsm]
          · rw [if_neg hsm]
      | some i =>
        dsimp only
        by_cases hac : st = some "academic"
        · rw [if_pos hac] at hv
          rw [if_pos hac, if_pos hac]
          cases hsec : d.academicSections[i]? with
          | none => rfl
          | some sec =>
            dsimp only
            cases hof : AcadField.ofString f with
            | none => rw [hof] at hv; simp at hv
            | some af =>
              dsimp only
              by_cases hne : getAcad sec af ≠ v
              · rw [if_pos hne, if_pos hne]
              · rw [if_neg hne, if_neg hne]
        · rw [if_neg hac] at hv
          rw [if_neg hac, if_neg hac]
          by_cases hsm : st = some "summary"
          · rw [if_pos hsm] at hv
            rw [if_pos hsm, if_pos hsm]
            cases hsec : d.performanceSummarySections[i]? with
            | none => rfl
            | some sec =>
              dsimp only
              cases hof : SummField.ofString f with
              | none => rw [hof] at hv; simp at hv
              | some sf =>
                dsimp only
                by_cases hne : getSumm sec sf ≠ v
                · rw [if_pos hne, if_pos hne]
                · rw [if_neg hne, if_neg hne]
          · rw [if_neg hsm]
            rw [if_neg hsm]

/-- The loop processes appended markup left to right, stopping at a raise. -/
theorem runJs_append (acc : JsData × Bool) (l1 l2 : List LocatedField) :
    runJs acc (l1 ++ l2) =
      match runJs acc l1 with
      | .error u => .error u
      | .ok acc2 => runJs acc2 l2 := by
  induction l1 generalizing acc with
  | nil => rfl
  | cons e rest ih =>
    rw [List.cons_append]
    show (match stepJs acc e with
          | Except.error u => Except.error u
          | Except.ok acc2 => runJs acc2 (rest ++ l2)) =
         (match (match stepJs acc e with
                 | Except.error u => Except.error u
                 | Except.ok acc2 => runJs acc2 rest) with
          | Except.error u => Except.error u
          | Except.ok acc2 => runJs acc2 l2)
    cases stepJs acc e with
    | error u => rfl
    | ok acc2 => exact ih acc2

/-- A run over valid locators is the typed fold, and never raises. -/
theorem runJs_valid (d : PlaafpData) (c : Bool) (es : List LocatedField)
    (hv : ∀ e ∈ es, validLocator e = true) :
    runJs (fromData d, c) es =
      Except.ok (fromData (es.foldl step (d, c)).1, (es.foldl step (d, c)).2) := by
  induction es generalizing d c with
  | nil => rfl
  | cons e rest ih =>
    have hv1 := hv e (by simp)
    have hvr : ∀ x ∈ rest, validLocator x = true := fun x hx => hv x (by simp [hx])
    show (match stepJs (fromData d, c) e with
          | Except.error u => Except.error u
          | Except.ok acc2 => runJs acc2 rest) = _
    rw [stepJs_valid d c e hv1, List.foldl_cons]
    cases hstep : step (d, c) e with
    | mk d2 c2 =>
      dsimp only
      exact ih d2 c2 hvr

/-- On markup whose locators are all valid, the untyped reconciler returns
exactly the typed result (and in particular does not raise). -/
theorem handlePreviewEditJs_valid (R : PlaafpData) (es : List LocatedField)
    (hv : ∀ e ∈ es, validLocator e = true) :
    handlePreviewEditJs R es = Except.ok (fromData (handlePreviewEdit R es)) := by
  unfold handlePreviewEditJs handlePreviewEdit
  rw [runJs_valid R false es hv]
  dsimp only
  cases hc : (es.foldl step (R, false)).2 <;> rfl

/-- Against a clean state whose list lengths match record `R`, a subsection
locator whose index does not resolve for `R` is skipped by the untyped
loop body as well: the element read is `undefined`. -/
theorem stepJs_invalid_index (R d : PlaafpData) (c : Bool) (e : LocatedField)
    (hinv : invalidSubsectionIndex R e = true)
    (hl1 : d.academicSections.length = R.academicSections.length)
    (hl2 : d.performanceSummarySections.length = R.performanceSummarySections.length) :
    stepJs (fromData d, c) e = Except.ok (fromData d, c) := by
  obtain ⟨f, ix, st, v⟩ := e
  unfold invalidSubsectionIndex at hinv
  dsimp only at hinv
  unfold stepJs
  dsimp only [fromData]
  by_cases hf : f = ""
  · rw [if_pos hf]
  · rw [if_neg hf]
    cases ix with
    | none => simp at hinv
    | some ixs =>
      dsimp only at hinv ⊢
      by_cases hac : st = some "academic"
      · rw [if_pos hac] at hinv
        rw [if_pos hac]
        unfold idxResolves at hinv
        cases hpi : intIdx (parseInt10 ixs) with
        | none => rfl
        | some i =>
          rw [hpi] at hinv
          dsimp only at hinv
          simp at hinv
          dsimp only
          rw [List.getElem?_eq_none (by omega)]
      · rw [if_neg hac] at hinv
        rw [if_neg hac]
        by_cases hsm : st = some "summary"
        · rw [if_pos hsm] at hinv
          rw [if_pos hsm]
          unfold idxResolves at hinv
          cases hpi : intIdx (parseInt10 ixs) with
          | none => rfl
          | some i =>
            rw [hpi] at hinv
            dsimp only at hinv
            simp at hinv
            dsimp only
            rw [List.getElem?_eq_none (by omega)]
        · rw [if_neg hsm] at hinv
          simp at hinv

/-- Concrete clock reading used in the duplicate-identifier scenario. -/
theorem natToString_1000 : natToString 1000 = "1000" := by
  unfold natToString
  rw [show natDigits 1000 = ['1','0','0','0'] from by
    rw [natDigits, dif_neg (by norm_num), natDigits, dif_neg (by norm_num),
      natDigits, dif_neg (by norm_num), natDigits, dif_pos (by norm_num)]
    rfl]

-- === CLAIM THEOREMS ===

/-- C1 (amended): rendering, reconciling the unedited rendering, and
rendering again reproduces the document, provided the student name is
nonempty and every subsection subject is trimmed and nonempty.  As stated
the claim is false for records with empty fields (see
`claim1_counterexample`): reconciling the unedited rendering writes the
placeholder texts back into the record, and the student-name placeholder
then changes the possessive/pronoun narrative pieces of the next render. -/
theorem claim1_render_reconcile_render (data : PlaafpData)
    (h1 : data.studentName ≠ "")
    (h2 : ∀ s ∈ data.academicSections, jsTrim s.subject = s.subject ∧ s.subject ≠ "")
    (h3 : ∀ s ∈ data.performanceSummarySections, jsTrim s.subject = s.subject ∧ s.subject ≠ "") :
    generatePreviewHtml (handlePreviewEdit data (extractFields (generatePreviewParts data))) =
      generatePreviewHtml data := by
  rw [handlePreviewEdit_render]
  unfold generatePreviewHtml
  rw [generatePreviewParts_norm data h1 h2 h3]

/-- C1 witness: the amended idempotence at a concrete record. -/
theorem claim1_witness :
    generatePreviewHtml (handlePreviewEdit sampleRecord (extractFields (generatePreviewParts sampleRecord))) =
      generatePreviewHtml sampleRecord :=
  claim1_render_reconcile_render sampleRecord (by decide) (by decide) (by decide)

/-- C1 counterexample: for the all-empty record, reconciling the unedited
rendering changes the next render: the rendering of the empty record
contains the possessive placeholder, the rendering of the reconciled
record does not (the student-name field now holds the placeholder text,
so `fillPossessive` produces its name-based form). -/
theorem claim1_counterexample :
    generatePreviewHtml (handlePreviewEdit initialPlaafpData (extractFields (generatePreviewParts initialPlaafpData))) ≠
      generatePreviewHtml initialPlaafpData := by
  intro h
  have h2 : strContains (generatePreviewHtml (handlePreviewEdit initialPlaafpData
        (extractFields (generatePreviewParts initialPlaafpData)))) "______\x27s" =
      strContains (generatePreviewHtml initialPlaafpData) "______\x27s" := by
    rw [h]
  rw [show strContains (generatePreviewHtml (handlePreviewEdit initialPlaafpData
        (extractFields (generatePreviewParts initialPlaafpData)))) "______\x27s" = false from by decide] at h2
  rw [show strContains (generatePreviewHtml initialPlaafpData) "______\x27s" = true from by decide] at h2
  simp at h2

/-- C2 (amended): for markup whose located spans all carry valid rendered
locators and in which every span other than the distinguished element
matches the STORED field it addresses, reconciling does not raise (the
untyped reconciler returns the typed result) and leaves that result
equal to the record with at most the one addressed field rewritten
(`writeTarget` changes exactly that field).  As stated — one span
differing from its RENDERED value — the claim is false: a
placeholder-rendered field matches its rendered text but not the stored
empty string, and the reconciler writes the placeholder back, see
`claim2_counterexample`. -/
theorem claim2_merge_isolation (R : PlaafpData) (l1 l2 : List LocatedField) (e : LocatedField)
    (hv : ∀ x ∈ l1 ++ e :: l2, validLocator x = true)
    (hm : ∀ x ∈ l1 ++ l2, matchesRecord R x = true) :
    handlePreviewEditJs R (l1 ++ e :: l2) =
      Except.ok (fromData (handlePreviewEdit R (l1 ++ e :: l2))) ∧
    (handlePreviewEdit R (l1 ++ e :: l2) = R ∨
      ∃ t w, targetOf e = some t ∧
        handlePreviewEdit R (l1 ++ e :: l2) = writeTarget R t w) :=
  ⟨handlePreviewEditJs_valid R (l1 ++ e :: l2) hv,
   handlePreviewEdit_single_edit R l1 l2 e hm⟩

/-- C2 witness: one changed grade span against the empty record. -/
theorem claim2_witness :
    handlePreviewEditJs initialPlaafpData ([] ++ (⟨"grade", none, none, "5"⟩ : LocatedField) :: []) =
      Except.ok (fromData (handlePreviewEdit initialPlaafpData
        ([] ++ (⟨"grade", none, none, "5"⟩ : LocatedField) :: []))) ∧
    (handlePreviewEdit initialPlaafpData ([] ++ (⟨"grade", none, none, "5"⟩ : LocatedField) :: []) = initialPlaafpData ∨
      ∃ t w, targetOf (⟨"grade", none, none, "5"⟩ : LocatedField) = some t ∧
        handlePreviewEdit initialPlaafpData ([] ++ (⟨"grade", none, none, "5"⟩ : LocatedField) :: []) =
          writeTarget initialPlaafpData t w) :=
  claim2_merge_isolation initialPlaafpData [] [] ⟨"grade", none, none, "5"⟩ (by decide) (by decide)

/-- C2 counterexample: the full rendered markup of the empty record,
edited in exactly ONE located span (its student-name text replaced by
"Jordan", every other span left at its rendered text — the zip count
checks this and every locator is a rendered one), reconciles to a record
whose grade field, which the changed locator does not name, went from ""
to the written-back placeholder "(grade)". -/
theorem claim2_counterexample :
    (List.zip editedInitialRender (extractFields (generatePreviewParts initialPlaafpData))).countP
        (fun p => !(p.1.value == p.2.value)) = 1 ∧
    editedInitialRender.all validLocator = true ∧
    (handlePreviewEdit initialPlaafpData editedInitialRender).grade = "(grade)" ∧
    initialPlaafpData.grade = "" :=
  ⟨by decide, by decide, by decide, rfl⟩

/-- C3: evaluating the two add-section handlers at the failing input (two
clicks inside the same `Date.now()` millisecond) produces a two-element
list in append order whose two fresh identifiers are EQUAL, contradicting
the claimed distinctness: the code derives ids from the clock only. -/
theorem claim3_duplicate_ids :
    (handleAddAcademicSection (handleAddAcademicSection initialPlaafpData 1000) 1000).academicSections.map AcademicSection.id
      = ["1000", "1000"] ∧
    ¬ ((handleAddAcademicSection (handleAddAcademicSection initialPlaafpData 1000) 1000).academicSections.map AcademicSection.id).Nodup ∧
    (handleAddPerformanceSummarySection (handleAddPerformanceSummarySection initialPlaafpData 1000) 1000).performanceSummarySections.map PerformanceSummarySection.id
      = ["1000", "1000"] := by
  refine ⟨?_, ?_, ?_⟩ <;>
    simp [handleAddAcademicSection, handleAddPerformanceSummarySection,
      initialAcademicSection, initialPerformanceSummarySection, initialPlaafpData,
      natToString_1000]

/-- C4 (amended): when the COMPANION locators are all valid rendered
locators, a subsection locator whose index does not resolve
(unparseable, negative, or beyond the list) is ignored: dropping it from
the markup does not change the untyped reconciler's outcome, that
outcome is the typed result (so the reconciler does not raise), and no
subsection is created (both list lengths are preserved).  As stated —
over arbitrary companion markup — the claim is false: a companion
locator naming the list key itself overwrites the list with the edited
text through the source's untyped cast, after which the invalid-index
locator's own processing indexes into that string and raises a
strict-mode TypeError assigning a property on a string primitive, see
`claim4_counterexample`. -/
theorem claim4_invalid_index (R : PlaafpData) (l1 l2 : List LocatedField) (e : LocatedField)
    (hv : ∀ x ∈ l1 ++ l2, validLocator x = true)
    (hinv : invalidSubsectionIndex R e = true) :
    handlePreviewEditJs R (l1 ++ e :: l2) = handlePreviewEditJs R (l1 ++ l2) ∧
    handlePreviewEditJs R (l1 ++ l2) = Except.ok (fromData (handlePreviewEdit R (l1 ++ l2))) ∧
    (handlePreviewEdit R (l1 ++ l2)).academicSections.length = R.academicSections.length ∧
    (handlePreviewEdit R (l1 ++ l2)).performanceSummarySections.length =
      R.performanceSummarySections.length := by
  have hv1 : ∀ x ∈ l1, validLocator x = true := fun x hx => hv x (by simp [hx])
  refine ⟨?_, handlePreviewEditJs_valid R (l1 ++ l2) hv, ?_, ?_⟩
  · have hrun : runJs (fromData R, false) (l1 ++ e :: l2) =
        runJs (fromData R, false) (l1 ++ l2) := by
      rw [runJs_append, runJs_append, runJs_valid R false l1 hv1]
      dsimp only
      have hs : stepJs (fromData (l1.foldl step (R, false)).1, (l1.foldl step (R, false)).2) e =
          Except.ok (fromData (l1.foldl step (R, false)).1, (l1.foldl step (R, false)).2) := by
        apply stepJs_invalid_index R _ _ e hinv
        · rw [foldl_step_fst]
          exact applyAll_academicSections_length R l1
        · rw [foldl_step_fst]
          exact applyAll_performanceSummarySections_length R l1
      show (match stepJs (fromData (l1.foldl step (R, false)).1,
              (l1.foldl step (R, false)).2) e with
            | Except.error u => Except.error u
            | Except.ok acc2 => runJs acc2 l2) = _
      rw [hs]
    unfold handlePreviewEditJs
    rw [hrun]
  · rw [handlePreviewEdit_eq_applyAll]
    exact applyAll_academicSections_length R (l1 ++ l2)
  · rw [handlePreviewEdit_eq_applyAll]
    exact applyAll_performanceSummarySections_length R (l1 ++ l2)

/-- C4 witness: an academic locator with index 5 against a one-section
record is ignored by the untyped reconciler. -/
theorem claim4_witness :
    handlePreviewEditJs oneSectionRecord ([] ++ (⟨"subject", some "5", some "academic", "X"⟩ : LocatedField) :: []) =
      handlePreviewEditJs oneSectionRecord ([] ++ []) ∧
    handlePreviewEditJs oneSectionRecord ([] ++ []) =
      Except.ok (fromData (handlePreviewEdit oneSectionRecord ([] ++ []))) ∧
    (handlePreviewEdit oneSectionRecord ([] ++ [])).academicSections.length =
      oneSectionRecord.academicSections.length ∧
    (handlePreviewEdit oneSectionRecord ([] ++ [])).performanceSummarySections.length =
      oneSectionRecord.performanceSummarySections.length :=
  claim4_invalid_index oneSectionRecord [] [] ⟨"subject", some "5", some "academic", "X"⟩
    (by decide) (by decide)

/-- C4 counterexample: against a one-section record, markup whose first
locator names the academicSections key (overwriting the list with the
string "XY") followed by a subsection locator with the non-resolving
index 1 makes the reconciler RAISE — the invalid-index locator is not
ignored and the record is not returned at all — while the same markup
without the invalid-index locator does not raise. -/
theorem claim4_counterexample :
    invalidSubsectionIndex oneSectionRecord ⟨"subject", some "1", some "academic", "v"⟩ = true ∧
    jsRaises (handlePreviewEditJs oneSectionRecord
      [⟨"academicSections", none, none, "XY"⟩,
       ⟨"subject", some "1", some "academic", "v"⟩]) = true ∧
    jsRaises (handlePreviewEditJs oneSectionRecord
      [⟨"academicSections", none, none, "XY"⟩]) = false :=
  ⟨by decide, by decide, by decide⟩

/-- C5 (amended): when every located element carries a valid rendered
locator and stages no update against the stored record (its text equals
the addressed field, or its locator does not resolve), the untyped
reconciler does not raise and returns the previous record itself;
markup with no located elements at all is the empty list, covered
vacuously.  As stated — over EVERY markup — the claim is false: the
reconciler CAN raise (a locator naming the academicSections key
overwrites the list with a string through the untyped cast, and a
subsequent subsection locator indexing into that string raises a
strict-mode TypeError assigning a property on a string primitive), see
`claim5_counterexample`; and an unknown data-field key reads back
`undefined`, which compares unequal to any text, so such markup stages a
stray write and returns a modified copy instead of the previous record. -/
theorem claim5_identity (R : PlaafpData) (es : List LocatedField)
    (h : ∀ e ∈ es, validLocator e = true ∧ matchesRecord R e = true) :
    handlePreviewEditJs R es = Except.ok (fromData R) ∧ handlePreviewEdit R es = R := by
  have h2 : handlePreviewEdit R es = R := by
    rw [handlePreviewEdit_eq_applyAll]
    exact applyAll_matches R es (fun e he => (h e he).2)
  refine ⟨?_, h2⟩
  rw [handlePreviewEditJs_valid R es (fun e he => (h e he).1), h2]

/-- C5 witness: an unchanged student-name span plus an out-of-range
locator leave the sample record untouched, without raising. -/
theorem claim5_witness :
    handlePreviewEditJs sampleRecord
      [⟨"studentName", none, none, "Jordan"⟩, ⟨"subject", some "7", some "academic", "X"⟩] =
      Except.ok (fromData sampleRecord) ∧
    handlePreviewEdit sampleRecord
      [⟨"studentName", none, none, "Jordan"⟩, ⟨"subject", some "7", some "academic", "X"⟩] = sampleRecord :=
  claim5_identity sampleRecord
    [⟨"studentName", none, none, "Jordan"⟩, ⟨"subject", some "7", some "academic", "X"⟩]
    (by decide)

/-- C5 counterexample: the reconciler raises on markup that first
overwrites the academicSections key with the string "AB" (the untyped
cast accepts any data-field) and then addresses an academic subsection
at index 0: the element read is the character string "A" and the
property assignment on it is a strict-mode TypeError. -/
theorem claim5_counterexample :
    jsRaises (handlePreviewEditJs initialPlaafpData
      [⟨"academicSections", none, none, "AB"⟩,
       ⟨"grade", some "0", some "academic", "z"⟩]) = true := by
  decide

/-- C6 (amended): the escaping function `sanitize` removes every `<` and
`>` from its input, so every value routed through it (all editable-span
contents and the `sanitize`-wrapped narrative interpolations, including
the student name) contributes no markup-significant characters; concretely
a record whose student name is "<script>" renders with no raw "<script>"
substring and with its escaped form present.  As stated the claim is
false: the `deficitType` value is interpolated as plain narrative text
without `sanitize` (source line 778), see `claim6_counterexample`. -/
theorem claim6_escaping :
    (∀ s : String, '<' ∉ (sanitize s).data ∧ '>' ∉ (sanitize s).data) ∧
    strContains (generatePreviewHtml scriptNameRecord) "<script>" = false ∧
    strContains (generatePreviewHtml scriptNameRecord) "&lt;script&gt;" = true := by
  refine ⟨fun s => ⟨sanitize_no_lt s, sanitize_no_gt s⟩, by decide, by decide⟩

/-- C6 counterexample: a record whose `deficitType` is "<script>" renders
with the raw, unescaped "<script>" in the document — the narrative
interpolation of `deficitType` bypasses `sanitize`. -/
theorem claim6_counterexample :
    strContains (generatePreviewHtml scriptDeficitRecord) "<script>" = true := by
  decide

/-- C7 (amended): a scalar whose trimmed value is empty is rendered by
`fill` as the placeholder "(explanatory placeholder text)", and on the
wholly empty record every located span carries either such a
parenthesised placeholder or one of the two blank-line name placeholders
("______ (student name)" / "______ (parent name)"); rendering is total,
so it never raises.  As stated the claim is false: the student-name and
parent-name spans do not use the "(...)" placeholder shape, and the
empty `deficitType` is rendered as raw fallback text with no located
span at all — see `claim7_counterexample`. -/
theorem claim7_placeholders (v p : String) (h : jsTrim v = "") :
    fill v p = "(" ++ p ++ ")" ∧
    ((extractFields (generatePreviewParts initialPlaafpData)).all
      (fun e => placeholderShape e.value || (e.value == "______ (student name)") ||
        (e.value == "______ (parent name)"))) = true :=
  ⟨fill_of_trim_eq v p h, by decide⟩

/-- C7 witness: the empty grade renders as "(grade)". -/
theorem claim7_witness :
    fill "" "grade" = "(" ++ "grade" ++ ")" ∧
    ((extractFields (generatePreviewParts initialPlaafpData)).all
      (fun e => placeholderShape e.value || (e.value == "______ (student name)") ||
        (e.value == "______ (parent name)"))) = true :=
  claim7_placeholders "" "grade" (by decide)

/-- C7 counterexample: on the wholly empty record the student-name span
does not carry a "(...)"-shaped placeholder (its text is the blank-line
placeholder "______ (student name)"), and the empty `deficitType` scalar
is rendered with no located span at all. -/
theorem claim7_counterexample :
    ((extractFields (generatePreviewParts initialPlaafpData)).filter
      (fun e => e.field == "studentName")).map (fun e => placeholderShape e.value) = [false] ∧
    ((extractFields (generatePreviewParts initialPlaafpData)).filter
      (fun e => e.field == "deficitType")) = [] := by
  exact ⟨by decide, by decide⟩

/-- C8 (amended): every declared scalar field of every entity is a string
(the enumerated `TopField`/`AcadField`/`SummField` views are exactly those
fields), absence is the empty string in the initial record and the two
section templates, and the two section types are determined by those
string fields TOGETHER WITH the array-valued `progressDataSources` list of
`AcademicSection`.  As stated the claim is false: `progressDataSources`
holds a list of strings, not a string — see `claim8_counterexample`. -/
theorem claim8_string_fields :
    (∀ f : TopField, getTop initialPlaafpData f = "") ∧
    initialPlaafpData.academicSections = [] ∧
    initialPlaafpData.performanceSummarySections = [] ∧
    (∀ idv : String, ∀ f : AcadField, f ≠ AcadField.id → getAcad (initialAcademicSection idv) f = "") ∧
    (∀ idv : String, (initialAcademicSection idv).progressDataSources = []) ∧
    (∀ idv : String, ∀ f : SummField, f ≠ SummField.id → getSumm (initialPerformanceSummarySection idv) f = "") ∧
    (∀ s1 s2 : AcademicSection, (∀ f, getAcad s1 f = getAcad s2 f) →
      s1.progressDataSources = s2.progressDataSources → s1 = s2) ∧
    (∀ s1 s2 : PerformanceSummarySection, (∀ f, getSumm s1 f = getSumm s2 f) → s1 = s2) := by
  refine ⟨fun f => by cases f <;> rfl, rfl, rfl,
    fun idv f hf => by cases f <;> first | rfl | exact absurd rfl hf,
    fun idv => rfl,
    fun idv f hf => by cases f <;> first | rfl | exact absurd rfl hf,
    ?_, ?_⟩
  · intro s1 s2 hf hp
    cases s1; cases s2
    simp only [AcademicSection.mk.injEq]
    exact ⟨hf .id, hf .subject, hf .staarProficient, hf .staarDeficits, hp,
      hf .currentData, hf .performanceComparison, hf .noProgressReason,
      hf .readingFluency, hf .readingComprehension, hf .mathProblemSolving,
      hf .supportsPerformance, hf .classroomStrengths, hf .classroomDeficits,
      hf .deficitsEvidence, hf .withSupports, hf .withoutSupports,
      hf .peerComparisonGradeLevel, hf .peerComparisonStudent,
      hf .benchmarkPercentile, hf .peerBenchmarkPercentile,
      hf .strengthsDespiteDeficits, hf .criticalNeeds, hf .independentAccessImpact⟩
  · intro s1 s2 hf
    cases s1; cases s2
    simp only [PerformanceSummarySection.mk.injEq]
    exact ⟨hf .id, hf .subject, hf .passedStateAssessment, hf .taksScore, hf .rawScore,
      hf .percentCorrect, hf .gradeInSubject, hf .accommodations, hf .needs,
      hf .receivesSpecialEdSupport, hf .strengths⟩

/-- C8 witness: the template fields evaluated at a concrete identifier. -/
theorem claim8_witness :
    getAcad (initialAcademicSection "a") AcadField.subject = "" ∧
    getTop initialPlaafpData TopField.grade = "" :=
  ⟨claim8_string_fields.2.2.2.1 "a" AcadField.subject (by decide),
   claim8_string_fields.1 TopField.grade⟩

/-- C8 counterexample: two academic sections that agree on every named
string field can still differ — `progressDataSources` is an array of
strings, not a string field, so "every field of every entity holds a
string" fails. -/
theorem claim8_counterexample :
    (∀ f : AcadField, getAcad (initialAcademicSection "a") f =
      getAcad { initialAcademicSection "a" with progressDataSources := ["x"] } f) ∧
    initialAcademicSection "a" ≠ { initialAcademicSection "a" with progressDataSources := ["x"] } := by
  constructor
  · intro f; cases f <;> rfl
  · intro h
    have h2 := congrArg AcademicSection.progressDataSources h
    simp [initialAcademicSection] at h2

/-- C9: through the generic editable-span path the rendered text is
`fill`, i.e. the TRIMMED field value when the trim is nonempty (shown for
the grade span of an arbitrary record) and the placeholder when the field
trims to empty — so a whitespace-only value renders as its placeholder,
and a stored value and its rendered projection can differ by surrounding
whitespace (" 5 " renders as "5"). -/
theorem claim9_trimmed_projection (R : PlaafpData) :
    (jsTrim R.grade ≠ "" →
      (⟨"grade", none, none, jsTrim R.grade⟩ : LocatedField) ∈
        extractFields (generatePreviewParts R)) ∧
    (jsTrim R.grade = "" →
      (⟨"grade", none, none, "(" ++ "grade" ++ ")"⟩ : LocatedField) ∈
        extractFields (generatePreviewParts R)) ∧
    fill " 5 " "grade" = "5" ∧ (" 5 " : String) ≠ "5" := by
  refine ⟨?_, ?_, by decide, by decide⟩
  · intro h
    rw [← fill_of_trim_ne R.grade "grade" h]
    unfold generatePreviewParts
    dsimp only
    rw [extractFields_append, extractFields_append, extractFields_append, extractFields_append]
    apply List.mem_append_left
    apply List.mem_append_left
    apply List.mem_append_left
    apply List.mem_append_left
    exact List.mem_cons_of_mem _ (List.mem_cons_self _ _)
  · intro h
    rw [← fill_of_trim_eq R.grade "grade" h]
    unfold generatePreviewParts
    dsimp only
    rw [extractFields_append, extractFields_append, extractFields_append, extractFields_append]
    apply List.mem_append_left
    apply List.mem_append_left
    apply List.mem_append_left
    apply List.mem_append_left
    exact List.mem_cons_of_mem _ (List.mem_cons_self _ _)

/-- C9 witness: on a record whose grade is empty, the grade span carries
the placeholder "(grade)". -/
theorem claim9_witness :
    (⟨"grade", none, none, "(" ++ "grade" ++ ")"⟩ : LocatedField) ∈
      extractFields (generatePreviewParts sampleRecord) :=
  (claim9_trimmed_projection sampleRecord).2.1 (by decide)

/-- C10 (amended): when every locator in the markup is a valid rendered
locator (it names a declared scalar field, so in particular neither of
the two list keys) and none names the "id" field, reconciling does not
raise, the untyped reconciler returns the typed result, the number of
academic and performance-summary sections is unchanged, and every
section identifier is unchanged.  As stated — for EVERY edited markup —
the claim is false: the `id` fields carry `data-field` locators like any
scalar, so markup addressing them rewrites section identifiers
(`claim10_counterexample`), and a locator naming a list key itself
overwrites the whole list through the source's untyped cast. -/
theorem claim10_sections_stable (R : PlaafpData) (es : List LocatedField)
    (h : ∀ e ∈ es, validLocator e = true ∧ e.field ≠ "id") :
    handlePreviewEditJs R es = Except.ok (fromData (handlePreviewEdit R es)) ∧
    (handlePreviewEdit R es).academicSections.length = R.academicSections.length ∧
    (handlePreviewEdit R es).performanceSummarySections.length = R.performanceSummarySections.length ∧
    (handlePreviewEdit R es).academicSections.map AcademicSection.id =
      R.academicSections.map AcademicSection.id ∧
    (handlePreviewEdit R es).performanceSummarySections.map PerformanceSummarySection.id =
      R.performanceSummarySections.map PerformanceSummarySection.id := by
  refine ⟨handlePreviewEditJs_valid R es (fun e he => (h e he).1), ?_⟩
  rw [handlePreviewEdit_eq_applyAll]
  have hids := applyAll_ids R es (fun e he => (h e he).2)
  exact ⟨applyAll_academicSections_length R es, applyAll_performanceSummarySections_length R es,
    hids.1, hids.2⟩

/-- C10 witness: a subject edit leaves counts and identifiers unchanged
and does not raise. -/
theorem claim10_witness :
    handlePreviewEditJs oneSectionRecord [⟨"subject", some "0", some "academic", "Math"⟩] =
      Except.ok (fromData (handlePreviewEdit oneSectionRecord [⟨"subject", some "0", some "academic", "Math"⟩])) ∧
    (handlePreviewEdit oneSectionRecord [⟨"subject", some "0", some "academic", "Math"⟩]).academicSections.length =
      oneSectionRecord.academicSections.length ∧
    (handlePreviewEdit oneSectionRecord [⟨"subject", some "0", some "academic", "Math"⟩]).performanceSummarySections.length =
      oneSectionRecord.performanceSummarySections.length ∧
    (handlePreviewEdit oneSectionRecord [⟨"subject", some "0", some "academic", "Math"⟩]).academicSections.map AcademicSection.id =
      oneSectionRecord.academicSections.map AcademicSection.id ∧
    (handlePreviewEdit oneSectionRecord [⟨"subject", some "0", some "academic", "Math"⟩]).performanceSummarySections.map PerformanceSummarySection.id =
      oneSectionRecord.performanceSummarySections.map PerformanceSummarySection.id :=
  claim10_sections_stable oneSectionRecord [⟨"subject", some "0", some "academic", "Math"⟩]
    (by decide)

/-- C10 counterexample: markup addressing the "id" locator of the first
academic section rewrites that section identifier. -/
theorem claim10_counterexample :
    (handlePreviewEdit oneSectionRecord [⟨"id", some "0", some "academic", "X"⟩]).academicSections.map AcademicSection.id = ["X"] ∧
    oneSectionRecord.academicSections.map AcademicSection.id = ["A"] :=
  ⟨by decide, by decide⟩
